import Mathlib

/-!
Formal model of the PlunderAcademy achievements submission-validation and
voucher-issuance pipeline (src/routes voucher handler, database wrapper and
contract utilities), written as a shallow embedding.

Modelling conventions:
- JavaScript numbers are modelled as exact rationals; the source performs
  plain arithmetic on scores and thresholds.
- A submitted quiz answer string is represented by its parse classification:
  either a plain string (not brace-delimited, so the shape test fails), a
  brace-delimited string that JSON.parse rejects, or a parsed object carrying
  a type tag and a userResponse payload.  Optional-chaining defaults from the
  source (empty string, empty list) are folded into the payload record.
- External collaborators (ethers address utilities, the EIP-712 signer, the
  blockchain JSON-RPC endpoint, the two hosted JSON documents and the clock)
  are passed in as explicit parameters, mirroring how the handler receives
  its environment.
- Presentation-only result fields (feedback, nextSteps, debug) are omitted;
  every field a claim consults is kept.
-/

/-- Whitespace characters stripped by the trim of the source (ASCII subset). -/
def isJsSpace (c : Char) : Bool :=
  c == ' ' || c == '\t' || c == '\n' || c == '\r' || c == '\x0b' || c == '\x0c'

/-- JS toUpperCase, character-wise over the string. -/
def jsToUpper (s : String) : String := String.mk (s.toList.map Char.toUpper)

/-- JS toLowerCase, character-wise over the string. -/
def jsToLower (s : String) : String := String.mk (s.toList.map Char.toLower)

/-- JS trim: strip surrounding whitespace. -/
def jsTrim (s : String) : String :=
  String.mk (((s.toList.dropWhile isJsSpace).reverse.dropWhile isJsSpace).reverse)

/-- A concept/definition id pair, as used by concept-matching answers. -/
structure MatchPair where
  conceptId : String
  definitionId : String
  deriving DecidableEq, Repr

/-- A true/false statement classification, as used by true-false answers. -/
structure Classification where
  id : String
  answer : Bool
  deriving DecidableEq, Repr

/-- Parsed userResponse payload of an interactive answer.  Fields that the
optional-chaining in the source defaults are given those default values. -/
structure InteractiveResponse where
  word : String := ""
  pairs : List MatchPair := []
  sequence : List String := []
  classifications : List Classification := []
  deriving DecidableEq, Repr

/-- Parse classification of a submitted answer string: a plain string whose
shape test fails, a brace-delimited string that JSON.parse rejects, or a
parsed object with a type tag and a userResponse payload.  A missing type
field behaves like a tag equal to no grader literal. -/
inductive UserAnswer where
  | plain (s : String)
  | malformed
  | interactive (tag : String) (resp : InteractiveResponse)
  deriving DecidableEq, Repr

/-- Data part of a configured interactive correct answer.  A missing field
read by a grader raises in the source and is caught, yielding score zero;
here a missing field is an explicit none. -/
structure CorrectData where
  word : Option String := none
  pairs : Option (List MatchPair) := none
  sequence : Option (List String) := none
  classifications : Option (List Classification) := none
  deriving DecidableEq, Repr

/-- A configured interactive correct answer: a type tag plus data. -/
structure InteractiveCorrectAnswer where
  type : String
  data : CorrectData
  deriving DecidableEq, Repr

/-- Grade a word jumble answer: full points exactly when the submitted word
matches the configured word case-insensitively. -/
def gradeWordJumble (userAnswer : UserAnswer) (correctAnswer : InteractiveCorrectAnswer)
    (points : ℚ) : ℚ :=
  match userAnswer with
  | .interactive tag resp =>
    if tag = "word-jumble" then
      match correctAnswer.data.word with
      | some w => if jsToUpper resp.word = jsToUpper w then points else 0
      | none => 0
    else 0
  | _ => 0

/-- Whether a submitted pair matches some expected pair exactly on both ids. -/
def pairMatches (correctPairs : List MatchPair) (userPair : MatchPair) : Bool :=
  correctPairs.any fun cp =>
    cp.conceptId == userPair.conceptId && cp.definitionId == userPair.definitionId

/-- Grade concept matching with partial credit: matched pairs over required
pairs, times the point value. -/
def gradeConceptMatching (userAnswer : UserAnswer) (correctAnswer : InteractiveCorrectAnswer)
    (points : ℚ) : ℚ :=
  match userAnswer with
  | .interactive tag resp =>
    if tag = "concept-matching" then
      match correctAnswer.data.pairs with
      | some correctPairs =>
        if correctPairs.length = 0 then 0
        else ((resp.pairs.filter (pairMatches correctPairs)).length : ℚ)
              / (correctPairs.length : ℚ) * points
      | none => 0
    else 0
  | _ => 0

/-- Count indices where the submitted and expected sequences agree, comparing
only up to the shorter length. -/
def countCorrectPositions : List String → List String → Nat
  | u :: us, c :: cs => (if u = c then 1 else 0) + countCorrectPositions us cs
  | _, _ => 0

/-- Grade timeline builder with positional partial credit: correct positions
over expected length, times the point value. -/
def gradeTimelineBuilder (userAnswer : UserAnswer) (correctAnswer : InteractiveCorrectAnswer)
    (points : ℚ) : ℚ :=
  match userAnswer with
  | .interactive tag resp =>
    if tag = "timeline-builder" then
      match correctAnswer.data.sequence with
      | some correctSequence =>
        if correctSequence.length = 0 then 0
        else ((countCorrectPositions resp.sequence correctSequence : ℚ)
              / (correctSequence.length : ℚ)) * points
      | none => 0
    else 0
  | _ => 0

/-- Whether a submitted classification agrees with the expected classification
found by id, as the source's find-then-compare does. -/
def classificationCorrect (correctClassifications : List Classification)
    (userClass : Classification) : Bool :=
  match correctClassifications.find? (fun cc => cc.id == userClass.id) with
  | some cc => cc.answer == userClass.answer
  | none => false

/-- Grade true/false statements with partial credit: agreeing classifications
over expected classifications, times the point value. -/
def gradeTrueFalseStatements (userAnswer : UserAnswer) (correctAnswer : InteractiveCorrectAnswer)
    (points : ℚ) : ℚ :=
  match userAnswer with
  | .interactive tag resp =>
    if tag = "true-false-statements" then
      match correctAnswer.data.classifications with
      | some correctClassifications =>
        if correctClassifications.length = 0 then 0
        else ((resp.classifications.filter (classificationCorrect correctClassifications)).length : ℚ)
              / (correctClassifications.length : ℚ) * points
      | none => 0
    else 0
  | _ => 0

/-- Grade drag and drop puzzle with positional partial credit: correct
positions over expected length, times the point value. -/
def gradeDragDropPuzzle (userAnswer : UserAnswer) (correctAnswer : InteractiveCorrectAnswer)
    (points : ℚ) : ℚ :=
  match userAnswer with
  | .interactive tag resp =>
    if tag = "drag-drop-puzzle" then
      match correctAnswer.data.sequence with
      | some correctSequence =>
        if correctSequence.length = 0 then 0
        else ((countCorrectPositions resp.sequence correctSequence : ℚ)
              / (correctSequence.length : ℚ)) * points
      | none => 0
    else 0
  | _ => 0

/-- Configured correct answer of a quiz question: a plain option string for
multiple choice, or an interactive-element variant. -/
inductive CorrectAnswer where
  | str (s : String)
  | interactive (a : InteractiveCorrectAnswer)
  deriving DecidableEq, Repr

/-- A configured quiz question (prompt text and option list omitted, they are
never consulted by grading). -/
structure QuizQuestion where
  id : String
  correctAnswer : CorrectAnswer
  points : ℚ
  deriving DecidableEq, Repr

/-- A configured question bank entry: questions plus passing percentage. -/
structure QuizData where
  questions : List QuizQuestion
  passingScore : ℚ
  deriving DecidableEq, Repr

/-- Dispatch an interactive answer to the grader selected by the configured
type tag; an unrecognised tag contributes zero, matching the switch with no
default case. -/
def gradeInteractiveAnswer (correctAnswer : InteractiveCorrectAnswer) (userAnswer : UserAnswer)
    (points : ℚ) : ℚ :=
  if correctAnswer.type = "word-jumble" then gradeWordJumble userAnswer correctAnswer points
  else if correctAnswer.type = "concept-matching" then
    gradeConceptMatching userAnswer correctAnswer points
  else if correctAnswer.type = "timeline-builder" then
    gradeTimelineBuilder userAnswer correctAnswer points
  else if correctAnswer.type = "true-false-statements" then
    gradeTrueFalseStatements userAnswer correctAnswer points
  else if correctAnswer.type = "drag-drop-puzzle" then
    gradeDragDropPuzzle userAnswer correctAnswer points
  else 0

/-- Shape test of the source: true exactly for answers whose trimmed string is
brace-delimited; in this model those are the malformed and interactive
classifications. -/
def isInteractiveAnswer : UserAnswer → Bool
  | .plain _ => false
  | _ => true

/-- Whether the raw submitted answer is falsy in the source (the empty
string); such answers are skipped by the grading loop. -/
def answerFalsy : UserAnswer → Bool
  | .plain s => s == ""
  | _ => false

/-- Score and binary-correct tally contributed by one question. -/
structure QuestionGrade where
  score : ℚ
  correct : Bool
  deriving DecidableEq, Repr

/-- Grade a single configured question against the submitted answer for its
id, following the per-question branch of the quiz validator. -/
def gradeQuestion (question : QuizQuestion) (submittedAnswer : Option UserAnswer) :
    QuestionGrade :=
  match submittedAnswer with
  | none => ⟨0, false⟩
  | some ua =>
    if answerFalsy ua then ⟨0, false⟩
    else if isInteractiveAnswer ua then
      match question.correctAnswer with
      | .interactive ca =>
        if ca.type ≠ "" then
          let s := gradeInteractiveAnswer ca ua question.points
          ⟨s, s == question.points⟩
        else ⟨0, false⟩
      | .str _ => ⟨0, false⟩
    else
      match ua, question.correctAnswer with
      | .plain s, .str c =>
        if jsToUpper s = jsToUpper c then ⟨question.points, true⟩ else ⟨0, false⟩
      | _, _ => ⟨0, false⟩

/-- Universal validator output.  Presentation-only fields are omitted. -/
structure VResult where
  passed : Bool
  retryAllowed : Bool
  error : Option String := none
  score : Option ℚ := none
  maxScore : Option ℚ := none
  passingScore : Option ℚ := none
  totalQuestions : Option Nat := none
  correctAnswers : Option Nat := none
  timeSpent : Option ℚ := none
  accuracy : Option ℚ := none
  transactionValid : Option Bool := none
  blockNumber : Option Int := none
  tokenAddress : Option String := none
  tokenName : Option String := none
  tokenSymbol : Option String := none
  contractAddress : Option String := none
  method : Option String := none
  deriving DecidableEq, Repr

/-- Grades of all configured questions against the submitted answers map. -/
def quizQuestionGrades (questions : List QuizQuestion) (answers : String → Option UserAnswer) :
    List QuestionGrade :=
  questions.map fun q => gradeQuestion q (answers q.id)

/-- Sum of per-question awarded scores. -/
def quizTotalScore (questions : List QuizQuestion) (answers : String → Option UserAnswer) : ℚ :=
  ((quizQuestionGrades questions answers).map (·.score)).sum

/-- Sum of configured point values. -/
def quizMaxScore (questions : List QuizQuestion) : ℚ :=
  (questions.map (·.points)).sum

/-- Number of questions answered with full credit. -/
def quizCorrectCount (questions : List QuizQuestion) (answers : String → Option UserAnswer) :
    Nat :=
  ((quizQuestionGrades questions answers).filter (·.correct)).length

/-- Assembled quiz result, following the aggregation of the quiz validator. -/
def quizResult (quizData : QuizData) (answers : String → Option UserAnswer)
    (timeSpent : Option ℚ) : VResult :=
  let questions := quizData.questions
  let totalScore := quizTotalScore questions answers
  let maxScore := quizMaxScore questions
  let correctCount := quizCorrectCount questions answers
  let accuracy : ℚ :=
    if questions.length > 0 then ((correctCount : ℚ) / (questions.length : ℚ)) * 100 else 0
  let scorePercentage : ℚ := if maxScore > 0 then totalScore / maxScore * 100 else 0
  let passed := decide (scorePercentage ≥ quizData.passingScore)
  { passed := passed
    retryAllowed := !passed
    score := some totalScore
    maxScore := some maxScore
    passingScore := some quizData.passingScore
    totalQuestions := some questions.length
    correctAnswers := some correctCount
    timeSpent := timeSpent
    accuracy := some accuracy }

/-- Quiz validator.  The answers argument is the optional answers property of
the submitted payload: when it is absent and at least one question is
configured, the per-question indexing raises in the source (result none,
caught by the route-level handler); when the question list is empty the loop
body never runs and the aggregate result is still produced. -/
def validateQuizSubmission (quizConfig : String → Option QuizData) (achievementNumber : String)
    (answers : Option (String → Option UserAnswer)) (timeSpent : Option ℚ) : Option VResult :=
  match quizConfig achievementNumber with
  | none =>
    some { passed := false, retryAllowed := false
           error := some "Quiz data not found for this achievement" }
  | some quizData =>
    match answers with
    | none =>
      if quizData.questions.isEmpty then some (quizResult quizData (fun _ => none) timeSpent)
      else none
    | some a => some (quizResult quizData a timeSpent)

/-- Normalize a possibly-missing string the way a JS truthiness test does:
the empty string is falsy and behaves like an absent value. -/
def strFalsyToNone : Option String → Option String
  | some "" => none
  | x => x

/-- JS short-circuit or on an optional string with a default: an absent or
empty string yields the default. -/
def jsOrStr (o : Option String) (d : String) : String :=
  match o with
  | some s => if s = "" then d else s
  | none => d

/-- JS short-circuit or on an optional number with a default: an absent or
zero value yields the default. -/
def jsOrInt (o : Option Int) (d : Int) : Int :=
  match o with
  | some v => if v = 0 then d else v
  | none => d

/-- Left-pad a string with a fill character up to the requested length. -/
def padStart (s : String) (n : Nat) (c : Char) : String :=
  if s.length < n then String.mk (List.replicate (n - s.length) c) ++ s else s

/-- Value of a hexadecimal digit character, by code point: digits 48-57,
lower-case letters 97-102, upper-case letters 65-70. -/
def hexDigitVal? (c : Char) : Option Nat :=
  let n := c.toNat
  if 48 ≤ n ∧ n ≤ 57 then some (n - 48)
  else if 97 ≤ n ∧ n ≤ 102 then some (n - 87)
  else if 65 ≤ n ∧ n ≤ 70 then some (n - 55)
  else none

/-- Value of a decimal digit character, by code point. -/
def decDigitVal? (c : Char) : Option Nat :=
  let n := c.toNat
  if 48 ≤ n ∧ n ≤ 57 then some (n - 48) else none

/-- Accumulate the value of a maximal digit prefix. -/
def digitsPrefixValAux (dig : Char → Option Nat) (base : Nat) : List Char → Nat → Nat
  | [], acc => acc
  | c :: cs, acc =>
    match dig c with
    | some v => digitsPrefixValAux dig base cs (acc * base + v)
    | none => acc

/-- Value of a maximal nonempty digit prefix; none when no digit leads. -/
def digitsPrefixVal (dig : Char → Option Nat) (base : Nat) : List Char → Option Nat
  | [] => none
  | c :: cs =>
    match dig c with
    | some v => some (digitsPrefixValAux dig base cs v)
    | none => none

/-- JS parseInt with radix 16 (hex true) or 10: skip leading whitespace, an
optional sign, optionally a 0x prefix when hex, then the longest digit
prefix; no digit at all gives NaN, modelled as none. -/
def jsParseInt (hex : Bool) (s : String) : Option Int :=
  let cs := s.toList.dropWhile (fun c => c == ' ' || c == '\t' || c == '\n' || c == '\r')
  let signSplit : Bool × List Char :=
    match cs with
    | '-' :: rest => (true, rest)
    | '+' :: rest => (false, rest)
    | _ => (false, cs)
  let body : List Char :=
    if hex then
      match signSplit.2 with
      | '0' :: 'x' :: rest => rest
      | '0' :: 'X' :: rest => rest
      | other => other
    else signSplit.2
  match digitsPrefixVal (if hex then hexDigitVal? else decDigitVal?) (if hex then 16 else 10) body with
  | some v => some (if signSplit.1 then -(v : Int) else (v : Int))
  | none => none

/-- Hex decoding of the source: walk the string two characters at a time,
parse each pair with radix 16 and append the character with that code unless
the code is zero.  A pair that parses to NaN feeds NaN to the character
constructor of the source, which yields the NUL character and, being
distinct from zero, is appended. -/
def hexPairsToString : List Char → String
  | a :: b :: rest =>
    (match jsParseInt true (String.mk [a, b]) with
     | some n => if n = 0 then "" else String.singleton (Char.ofNat ((n % 65536).toNat))
     | none => String.singleton (Char.ofNat 0)) ++ hexPairsToString rest
  | [a] =>
    match jsParseInt true (String.mk [a]) with
    | some n => if n = 0 then "" else String.singleton (Char.ofNat ((n % 65536).toNat))
    | none => String.singleton (Char.ofNat 0)
  | [] => ""

/-- Decode an eth_call result the way the source decodes name and symbol:
skip the 0x prefix, use the ABI length word when the payload is long enough
and the length is plausible, otherwise attempt a direct decode. -/
def decodeAbiString (result : String) : String :=
  let hex := result.drop 2
  if hex.length ≥ 128 then
    match jsParseInt true ((hex.drop 64).take 64) with
    | some len =>
      if 0 < len ∧ len ≤ 100 then hexPairsToString (((hex.drop 128).take (2 * len.toNat)).toList)
      else ""
    | none => ""
  else
    let decoded := hexPairsToString hex.toList
    if decoded.length > 0 then decoded else ""

/-- Epoch milliseconds of 2025-11-14T23:00:00Z, the hard cutoff for the
launch achievement 1101. -/
def launchCutoffMs : Nat := 1763161200000

/-- Secret validator: looks up the configured answer (an absent or empty
configured value is a non-retryable failure), enforces the launch cutoff for
achievement 1101, then compares the trimmed submission case-sensitively. -/
def validateSecretSubmission (secretAnswersConfig : String → Option String)
    (achievementNumber : String) (nowMs : Nat) (secretAnswer : Option String) : VResult :=
  match strFalsyToNone (secretAnswersConfig achievementNumber) with
  | none =>
    { passed := false, retryAllowed := false
      error := some "Secret answer not configured for this achievement" }
  | some expectedAnswer =>
    if achievementNumber == "1101" && decide (nowMs > launchCutoffMs) then
      { passed := false, retryAllowed := false
        error := some "This launch day achievement is no longer available. The promotion period has ended." }
    else
      match strFalsyToNone secretAnswer with
      | none =>
        { passed := false, retryAllowed := true, error := some "Secret answer is required" }
      | some sa =>
        let passed := jsTrim sa == expectedAnswer
        { passed := passed, retryAllowed := !passed }

/-- Outcome of one awaited fetch round-trip: a thrown network error (caught
by the enclosing try block in the source), or a JSON-RPC response with its
ok flag, optional error message and optional result. -/
inductive Fetch (α : Type) where
  | threw
  | resp (ok : Bool) (err : Option String) (result : Option α)

/-- A receipt log entry; only the topics are consulted. -/
structure LogEntry where
  topics : List String

/-- A transaction receipt as consulted by the verifiers. -/
structure Receipt where
  status : String
  toAddr : Option String
  contractAddress : Option String
  logs : List LogEntry

/-- A transaction as consulted by the generic verifier. -/
structure TxData where
  fromAddr : String
  blockNumber : Option String

/-- The blockchain JSON-RPC collaborator, indexed by the endpoint URL chosen
by the router. -/
structure Chain where
  getTransactionByHash : (rpcUrl txHash : String) → Fetch TxData
  getTransactionReceipt : (rpcUrl txHash : String) → Fetch Receipt
  ethCall : (rpcUrl toAddr callData : String) → Fetch String
  getStorageAt : (rpcUrl addr slot : String) → Fetch String

/-- Environment bindings consulted by the pipeline. -/
structure Env where
  rpcUrl : String
  rpcUrlMainnet : Option String := none
  rpcUrlTestnet : Option String := none
  factoryAddressTestnet : Option String := none
  factoryAddressMainnet : Option String := none
  contractAddress : String
  chainId : String

/-- External ethers collaborators: address validation and checksum
normalization, and the EIP-712 voucher signer derived from the environment
key, contract address and chain id. -/
structure EthersExt where
  isValidEthereumAddress : String → Bool
  normalizeAddress : String → String
  signVoucher : (taskCode : Option Int) → (wallet : String) → String

/-- Classified outcome of an eth_call probe, mirroring the checks the source
applies to every probed function: thrown fetch, failed or error response,
missing or empty result, or a usable value. -/
inductive CallOutcome where
  | threw
  | callError (msg : Option String)
  | empty
  | value (r : String)

/-- Classify an eth_call fetch outcome. -/
def classifyCall (f : Fetch String) : CallOutcome :=
  match f with
  | .threw => .threw
  | .resp ok err res =>
    if !ok || err.isSome then .callError err
    else
      match res with
      | none => .empty
      | some r => if r = "" || r = "0x" then .empty else .value r

/-- Classified outcome of a receipt fetch: thrown, failed (not ok, error, or
missing result), or a receipt. -/
inductive ReceiptOutcome where
  | threw
  | failed (msg : Option String)
  | got (receipt : Receipt)

/-- Classify a receipt fetch outcome. -/
def classifyReceipt (f : Fetch Receipt) : ReceiptOutcome :=
  match f with
  | .threw => .threw
  | .resp ok err res =>
    if !ok || err.isSome then .failed err
    else
      match res with
      | none => .failed err
      | some receipt => .got receipt

/-- Result of the ERC-20 introspection of the source. -/
structure ERC20Check where
  isValid : Bool
  error : Option String := none
  name : Option String := none
  symbol : Option String := none
  totalSupply : Option String := none

/-- Failure of an ERC-20 probe call. -/
def erc20CallFail (fname : String) (m : Option String) : ERC20Check :=
  { isValid := false, error := some ("Failed to call " ++ fname ++ "(): " ++ jsOrStr m "Network error") }

/-- Failure when a probed ERC-20 function returns nothing. -/
def erc20MissingFn (fname : String) : ERC20Check :=
  { isValid := false, error := some ("Contract does not implement ERC-20 function: " ++ fname) }

/-- Catch-all failure of the ERC-20 introspection. -/
def erc20Catch : ERC20Check :=
  { isValid := false, error := some "Failed to verify ERC-20 compliance" }

/-- Probe the four canonical ERC-20 calls in order (name, symbol, decimals,
totalSupply), decode name and symbol, and require both decodings nonempty. -/
def verifyERC20Token (chain : Chain) (rpcUrl contractAddr : String) : ERC20Check :=
  match classifyCall (chain.ethCall rpcUrl contractAddr "0x06fdde03") with
  | .threw => erc20Catch
  | .callError m => erc20CallFail "name" m
  | .empty => erc20MissingFn "name"
  | .value rName =>
    match classifyCall (chain.ethCall rpcUrl contractAddr "0x95d89b41") with
    | .threw => erc20Catch
    | .callError m => erc20CallFail "symbol" m
    | .empty => erc20MissingFn "symbol"
    | .value rSymbol =>
      match classifyCall (chain.ethCall rpcUrl contractAddr "0x313ce567") with
      | .threw => erc20Catch
      | .callError m => erc20CallFail "decimals" m
      | .empty => erc20MissingFn "decimals"
      | .value _rDecimals =>
        match classifyCall (chain.ethCall rpcUrl contractAddr "0x18160ddd") with
        | .threw => erc20Catch
        | .callError m => erc20CallFail "totalSupply" m
        | .empty => erc20MissingFn "totalSupply"
        | .value rTotalSupply =>
          let nm := decodeAbiString rName
          let sym := decodeAbiString rSymbol
          if nm = "" || sym = "" then
            { isValid := false
              error := some "Contract does not return valid token name or symbol" }
          else
            { isValid := true, name := some nm, symbol := some sym
              totalSupply := some rTotalSupply }

/-- Result of the claimant-field check. -/
structure ClaimantCheck where
  isValid : Bool
  error : Option String := none

/-- Call the claimant accessor and compare the decoded address with the
expected claimant, case-insensitively. -/
def verifyClaimantField (chain : Chain) (rpcUrl contractAddr expectedClaimant : String) :
    ClaimantCheck :=
  match chain.ethCall rpcUrl contractAddr "0xd28720af" with
  | .threw => { isValid := false, error := some "Failed to verify claimant field" }
  | .resp ok err res =>
    if !ok || err.isSome then
      { isValid := false
        error := some ("Failed to call claimant(): " ++ jsOrStr err "Network error") }
    else
      match res with
      | none =>
        { isValid := false
          error := some "Contract does not have a claimant field - required for achievement verification" }
      | some r =>
        if r = "" || r = "0x" then
          { isValid := false
            error := some "Contract does not have a claimant field - required for achievement verification" }
        else
          let claimantAddress := "0x" ++ r.drop 26
          if jsToLower claimantAddress ≠ jsToLower expectedClaimant then
            { isValid := false
              error := some "Contract claimant does not match connected wallet" }
          else { isValid := true }

/-- Topic signature of the TokenCreated event. -/
def tokenCreatedEventSignature : String :=
  "0xf7e8acecb8d3544fef71b7f97c2188587e324a3e2279d51915c3e067a640e88d"

/-- Factory-path verification for achievement 0005: resolve the factory
address for the chain, fetch the receipt, require success and that the
transaction targeted the factory, locate the TokenCreated log, decode
creator and token address from its topics, require the creator to be the
expected creator, then introspect the created token as an ERC-20. -/
def verifyFactoryTokenCreation (chain : Chain) (env : Env) (rpcUrl txId : String)
    (chainId : Int) (expectedCreator : String) : VResult :=
  let factoryAddress := strFalsyToNone
    (if chainId = 33101 then env.factoryAddressTestnet else env.factoryAddressMainnet)
  match factoryAddress with
  | none =>
    { passed := false, retryAllowed := false
      error := some "Token factory not deployed on this network" }
  | some factory =>
    match classifyReceipt (chain.getTransactionReceipt rpcUrl txId) with
    | .threw =>
      { passed := false, retryAllowed := true
        error := some "Failed to verify factory token creation" }
    | .failed m =>
      { passed := false, retryAllowed := true
        error := some ("Failed to get transaction receipt: " ++ jsOrStr m "Transaction not found") }
    | .got receipt =>
      if receipt.status ≠ "0x1" then
        { passed := false, retryAllowed := true
          error := some "Transaction failed on the blockchain" }
      else if (receipt.toAddr.map jsToLower) ≠ some (jsToLower factory) then
        { passed := false, retryAllowed := true
          error := some "Transaction did not call the Plunder Academy token factory" }
      else
        match receipt.logs.find? (fun lg => lg.topics.head? == some tokenCreatedEventSignature) with
        | none =>
          { passed := false, retryAllowed := true
            error := some "No TokenCreated event found in transaction" }
        | some lg =>
          match lg.topics[1]?, lg.topics[3]? with
          | some t1, some t3 =>
            let creator := "0x" ++ t1.drop 26
            let tokenAddress := "0x" ++ t3.drop 26
            if jsToLower creator ≠ jsToLower expectedCreator then
              { passed := false, retryAllowed := true
                error := some "Token creator does not match connected wallet" }
            else
              let tokenValidation := verifyERC20Token chain rpcUrl tokenAddress
              if !tokenValidation.isValid then
                { passed := false, retryAllowed := true
                  error := some ("Token validation failed: " ++ jsOrStr tokenValidation.error "") }
              else
                { passed := true, retryAllowed := false
                  tokenAddress := some tokenAddress
                  tokenName := tokenValidation.name
                  tokenSymbol := tokenValidation.symbol
                  method := some "factory" }
          | _, _ =>
            { passed := false, retryAllowed := true
              error := some "Failed to verify factory token creation" }

/-- Deployment-path verification for achievement 0005: fetch the receipt,
require a successful contract creation, introspect the deployed contract as
an ERC-20, then require its claimant accessor to return the claimant. -/
def verifyManualTokenDeployment (chain : Chain) (rpcUrl txId expectedClaimant : String) :
    VResult :=
  match classifyReceipt (chain.getTransactionReceipt rpcUrl txId) with
  | .threw =>
    { passed := false, retryAllowed := true
      error := some "Failed to verify manual token deployment" }
  | .failed m =>
    { passed := false, retryAllowed := true
      error := some ("Failed to get transaction receipt: " ++ jsOrStr m "Transaction not found") }
  | .got receipt =>
    if receipt.status ≠ "0x1" then
      { passed := false, retryAllowed := true
        error := some "Transaction failed on the blockchain" }
    else
      match strFalsyToNone receipt.contractAddress with
      | none =>
        { passed := false, retryAllowed := true
          error := some "Transaction did not deploy a contract" }
      | some contractAddr =>
        let tokenValidation := verifyERC20Token chain rpcUrl contractAddr
        if !tokenValidation.isValid then
          { passed := false, retryAllowed := true
            error := some ("Token validation failed: " ++ jsOrStr tokenValidation.error "") }
        else
          let claimantValidation := verifyClaimantField chain rpcUrl contractAddr expectedClaimant
          if !claimantValidation.isValid then
            { passed := false, retryAllowed := true, error := claimantValidation.error }
          else
            { passed := true, retryAllowed := false
              tokenAddress := some contractAddr
              tokenName := tokenValidation.name
              tokenSymbol := tokenValidation.symbol
              method := some "deployment" }

/-- Whether the pattern occurs as a prefix of the character list. -/
def charsHaveStart : List Char → List Char → Bool
  | [], _ => true
  | _ :: _, [] => false
  | p :: ps, c :: cs => p == c && charsHaveStart ps cs

/-- Whether the pattern occurs as a contiguous sublist. -/
def charsInclude (pat : List Char) : List Char → Bool
  | [] => charsHaveStart pat []
  | c :: cs => charsHaveStart pat (c :: cs) || charsInclude pat cs

/-- JS String.includes: substring containment. -/
def strIncludes (s pat : String) : Bool := charsInclude pat.toList s.toList

/-- Shared failure results of the receipt-based verifiers. -/
def receiptFailResult (m : Option String) : VResult :=
  { passed := false, retryAllowed := true
    error := some ("Failed to get transaction receipt: " ++ jsOrStr m "Transaction not found") }

/-- Failure when the receipt reports an unsuccessful transaction. -/
def txFailedResult : VResult :=
  { passed := false, retryAllowed := true
    error := some "Transaction failed on the blockchain" }

/-- Failure when the receipt shows no created contract. -/
def noDeployResult : VResult :=
  { passed := false, retryAllowed := true
    error := some "Transaction did not deploy a contract" }

/-- Staking-contract verification for achievement 0025: successful contract
creation, claimant match, then probes of stakingToken and totalStaked. -/
def verifyStakingContract (chain : Chain) (rpcUrl txId expectedClaimant : String) : VResult :=
  match classifyReceipt (chain.getTransactionReceipt rpcUrl txId) with
  | .threw =>
    { passed := false, retryAllowed := true
      error := some "Failed to verify staking contract deployment" }
  | .failed m => receiptFailResult m
  | .got receipt =>
    if receipt.status ≠ "0x1" then txFailedResult
    else
      match strFalsyToNone receipt.contractAddress with
      | none => noDeployResult
      | some contractAddr =>
        let claimantValidation := verifyClaimantField chain rpcUrl contractAddr expectedClaimant
        if !claimantValidation.isValid then
          { passed := false, retryAllowed := true, error := claimantValidation.error }
        else
          match classifyCall (chain.ethCall rpcUrl contractAddr "0x72f702f3") with
          | .threw =>
            { passed := false, retryAllowed := true
              error := some "Failed to verify staking contract deployment" }
          | .callError _ =>
            { passed := false, retryAllowed := true
              error := some "Contract does not appear to be a staking contract (missing stakingToken)" }
          | .empty =>
            { passed := false, retryAllowed := true
              error := some "Contract does not appear to be a staking contract (missing stakingToken)" }
          | .value _ =>
            match classifyCall (chain.ethCall rpcUrl contractAddr "0x817b1cd2") with
            | .threw =>
              { passed := false, retryAllowed := true
                error := some "Failed to verify staking contract deployment" }
            | .callError _ =>
              { passed := false, retryAllowed := true
                error := some "Contract does not appear to be a staking contract (missing totalStaked)" }
            | .empty =>
              { passed := false, retryAllowed := true
                error := some "Contract does not appear to be a staking contract (missing totalStaked)" }
            | .value _ =>
              { passed := true, retryAllowed := false
                contractAddress := some contractAddr, method := some "deployment" }

/-- NFT-collection verification for achievement 0033: successful contract
creation, claimant match, then probes of the max-supply constant and the
minted-count accessor. -/
def verifyNFTCollection (chain : Chain) (rpcUrl txId expectedClaimant : String) : VResult :=
  match classifyReceipt (chain.getTransactionReceipt rpcUrl txId) with
  | .threw =>
    { passed := false, retryAllowed := true
      error := some "Failed to verify NFT collection deployment" }
  | .failed m => receiptFailResult m
  | .got receipt =>
    if receipt.status ≠ "0x1" then txFailedResult
    else
      match strFalsyToNone receipt.contractAddress with
      | none => noDeployResult
      | some contractAddr =>
        let claimantValidation := verifyClaimantField chain rpcUrl contractAddr expectedClaimant
        if !claimantValidation.isValid then
          { passed := false, retryAllowed := true, error := claimantValidation.error }
        else
          match classifyCall (chain.ethCall rpcUrl contractAddr "0x32cb6b0c") with
          | .threw =>
            { passed := false, retryAllowed := true
              error := some "Failed to verify NFT collection deployment" }
          | .callError _ =>
            { passed := false, retryAllowed := true
              error := some "Contract does not appear to be an NFT collection (missing MAX_SUPPLY)" }
          | .empty =>
            { passed := false, retryAllowed := true
              error := some "Contract does not appear to be an NFT collection (missing MAX_SUPPLY)" }
          | .value _ =>
            match classifyCall (chain.ethCall rpcUrl contractAddr "0xa2309ff8") with
            | .threw =>
              { passed := false, retryAllowed := true
                error := some "Failed to verify NFT collection deployment" }
            | .callError _ =>
              { passed := false, retryAllowed := true
                error := some "Contract does not appear to be an NFT collection (missing totalMinted)" }
            | .empty =>
              { passed := false, retryAllowed := true
                error := some "Contract does not appear to be an NFT collection (missing totalMinted)" }
            | .value _ =>
              { passed := true, retryAllowed := false
                contractAddress := some contractAddr, method := some "deployment" }

/-- Random-number-generator verification for achievement 0043: successful
contract creation, claimant match, a tolerant probe of the reveal function
(only a missing-function error fails it), then a probe of the commitments
mapping keyed by the claimant address. -/
def verifyRandomNumberGenerator (chain : Chain) (rpcUrl txId expectedClaimant : String) :
    VResult :=
  match classifyReceipt (chain.getTransactionReceipt rpcUrl txId) with
  | .threw =>
    { passed := false, retryAllowed := true
      error := some "Failed to verify random number generator deployment" }
  | .failed m => receiptFailResult m
  | .got receipt =>
    if receipt.status ≠ "0x1" then txFailedResult
    else
      match strFalsyToNone receipt.contractAddress with
      | none => noDeployResult
      | some contractAddr =>
        let claimantValidation := verifyClaimantField chain rpcUrl contractAddr expectedClaimant
        if !claimantValidation.isValid then
          { passed := false, retryAllowed := true, error := claimantValidation.error }
        else
          match chain.ethCall rpcUrl contractAddr "0xa475b5dd" with
          | .threw =>
            { passed := false, retryAllowed := true
              error := some "Failed to verify random number generator deployment" }
          | .resp revealOk revealErr _ =>
            if !revealOk && strIncludes (jsOrStr revealErr "") "does not exist" then
              { passed := false, retryAllowed := true
                error := some "Contract does not appear to be a random number generator (missing reveal function)" }
            else
              let dummyAddress := (jsToLower expectedClaimant).replace "0x" ""
              match chain.ethCall rpcUrl contractAddr
                  ("0xe8fcf723" ++ padStart dummyAddress 64 '0') with
              | .threw =>
                { passed := false, retryAllowed := true
                  error := some "Failed to verify random number generator deployment" }
              | .resp ok err _ =>
                if !ok || err.isSome then
                  { passed := false, retryAllowed := true
                    error := some "Contract does not appear to be a random number generator (missing commitments mapping)" }
                else
                  { passed := true, retryAllowed := false
                    contractAddress := some contractAddr, method := some "deployment" }

/-- The EIP-1967 implementation storage slot. -/
def implementationSlot : String :=
  "0x360894a13ba1a3210667c828492db98dca3e2076cc3735a920a3ca505d382bbc"

/-- The 32-byte zero word returned for an empty storage slot. -/
def zeroStorageWord : String :=
  "0x0000000000000000000000000000000000000000000000000000000000000000"

/-- Upgradeable-proxy verification for achievement 0046: normalize the
submitted proxy address, require a matching claimant accessor, then read the
EIP-1967 implementation slot directly and require it nonzero. -/
def verifyUpgradeableContract (chain : Chain) (ext : EthersExt)
    (rpcUrl proxyAddress expectedClaimant : String) : VResult :=
  let contractAddr := ext.normalizeAddress proxyAddress
  let claimantValidation := verifyClaimantField chain rpcUrl contractAddr expectedClaimant
  if !claimantValidation.isValid then
    { passed := false, retryAllowed := true, error := claimantValidation.error }
  else
    match chain.getStorageAt rpcUrl contractAddr implementationSlot with
    | .threw =>
      { passed := false, retryAllowed := true
        error := some "Failed to verify upgradeable contract proxy" }
    | .resp ok err res =>
      if !ok || err.isSome then
        { passed := false, retryAllowed := true
          error := some "Failed to read proxy storage slot" }
      else
        let implEmpty := match res with
          | none => true
          | some impl => impl = "" || impl = "0x" || impl = zeroStorageWord
        if implEmpty then
          { passed := false, retryAllowed := true
            error := some "Contract does not appear to be an EIP-1967 proxy (implementation slot is empty)" }
        else
          { passed := true, retryAllowed := false
            contractAddress := some contractAddr, method := some "deployment" }

/-- Kind-specific payload of a submission, modelled as a record of optional
properties like the untyped object the source receives. -/
structure SubmissionData where
  answers : Option (String → Option UserAnswer) := none
  transactionHash : Option String := none
  chainId : Option Int := none
  claimantAddress : Option String := none
  method : Option String := none
  secretAnswer : Option String := none
  contractAddress : Option String := none

/-- Hexadecimal character class of the transaction-id pattern (the same set
of characters that carries a hex digit value). -/
def isHexDigitChar (c : Char) : Bool :=
  (hexDigitVal? c).isSome

/-- The strict transaction-id pattern: the two characters 0x followed by
exactly 64 hexadecimal characters. -/
def txIdPatternTest (s : String) : Bool :=
  match s.toList with
  | '0' :: 'x' :: rest => rest.length == 64 && rest.all isHexDigitChar
  | _ => false

/-- The invalid-format failure returned before any blockchain access. -/
def invalidTxFormatResult : VResult :=
  { passed := false, retryAllowed := true
    error := some "Invalid transaction ID format. Expected 64-character hex string starting with 0x" }

/-- Whether the submitted claimant is absent, empty, or differs from the
submitting wallet case-insensitively. -/
def claimantMismatch (claimantAddress : Option String) (walletAddress : String) : Bool :=
  match claimantAddress with
  | none => true
  | some ca => ca == "" || !(jsToLower ca == jsToLower walletAddress)

/-- Failure when the claimant does not match the submitting wallet. -/
def claimantMismatchResult : VResult :=
  { passed := false, retryAllowed := true
    error := some "Claimant address must match the submitting wallet address" }

/-- Generic transaction verification: fetch the transaction, require it to be
found and to originate from the submitting wallet, and report the block
number. -/
def genericTransactionValidation (chain : Chain) (ext : EthersExt)
    (rpcUrl transactionHash walletAddress : String) : VResult :=
  match chain.getTransactionByHash rpcUrl transactionHash with
  | .threw =>
    { passed := false, retryAllowed := true
      error := some "Failed to validate transaction due to network error" }
  | .resp ok err res =>
    if !ok || err.isSome then
      { passed := false, retryAllowed := true
        error := some ("Failed to verify transaction: " ++ jsOrStr err "Network error") }
    else
      match res with
      | none =>
        { passed := false, retryAllowed := true
          error := some "Transaction not found on the blockchain. Make sure the transaction is confirmed." }
      | some transaction =>
        if ext.normalizeAddress transaction.fromAddr ≠ ext.normalizeAddress walletAddress then
          { passed := false, retryAllowed := true
            error := some "Transaction must be from the submitting wallet address" }
        else
          let blockNumber := match strFalsyToNone transaction.blockNumber with
            | some bn => jsParseInt true bn
            | none => none
          { passed := true, retryAllowed := false
            transactionValid := some true, blockNumber := blockNumber }

/-- Transaction validator: strict hash-format gate, then the bespoke paths
for achievements 0005, 0025, 0033 and 0043, and the generic fallback. -/
def validateTransactionSubmission (chain : Chain) (ext : EthersExt) (envOpt : Option Env)
    (sub : SubmissionData) (achievementNumber walletAddress rpcUrl : String) : VResult :=
  let hashOk := match sub.transactionHash with
    | some h => txIdPatternTest h
    | none => false
  if !hashOk then invalidTxFormatResult
  else
    let transactionHash := jsOrStr sub.transactionHash ""
    if achievementNumber = "0005" then
      match strFalsyToNone sub.method with
      | none =>
        { passed := false, retryAllowed := true
          error := some "Token creation method is required for achievement 0005. Must be \"factory\" or \"deployment\"" }
      | some method =>
        if claimantMismatch sub.claimantAddress walletAddress then claimantMismatchResult
        else
          let claimant := jsOrStr sub.claimantAddress ""
          if method = "factory" then
            match envOpt with
            | none =>
              { passed := false, retryAllowed := true
                error := some "Environment configuration not available" }
            | some env =>
              verifyFactoryTokenCreation chain env rpcUrl transactionHash
                (jsOrInt sub.chainId 33101) claimant
          else if method = "deployment" then
            verifyManualTokenDeployment chain rpcUrl transactionHash claimant
          else
            { passed := false, retryAllowed := true
              error := some "Invalid method. Must be \"factory\" or \"deployment\"" }
    else if achievementNumber = "0025" then
      if claimantMismatch sub.claimantAddress walletAddress then claimantMismatchResult
      else verifyStakingContract chain rpcUrl transactionHash (jsOrStr sub.claimantAddress "")
    else if achievementNumber = "0033" then
      if claimantMismatch sub.claimantAddress walletAddress then claimantMismatchResult
      else verifyNFTCollection chain rpcUrl transactionHash (jsOrStr sub.claimantAddress "")
    else if achievementNumber = "0043" then
      if claimantMismatch sub.claimantAddress walletAddress then claimantMismatchResult
      else verifyRandomNumberGenerator chain rpcUrl transactionHash (jsOrStr sub.claimantAddress "")
    else genericTransactionValidation chain ext rpcUrl transactionHash walletAddress

/-- Validation context assembled by the router. -/
structure ValidationContext where
  achievementNumber : String
  walletAddress : String
  rpcUrl : String
  submissionType : String
  submissionData : SubmissionData
  timeSpent : Option ℚ := none

/-- Validator dispatch: route to the validator matching the submission type.
The quiz branch may raise (result none) as described at
validateQuizSubmission; every other branch returns a result. -/
def validateSubmission (chain : Chain) (ext : EthersExt) (envOpt : Option Env)
    (quizConfig : String → Option QuizData) (secretAnswersConfig : String → Option String)
    (nowMs : Nat) (ctx : ValidationContext) : Option VResult :=
  if ctx.submissionType = "quiz" then
    validateQuizSubmission quizConfig ctx.achievementNumber ctx.submissionData.answers
      ctx.timeSpent
  else if ctx.submissionType = "transaction" then
    some (validateTransactionSubmission chain ext envOpt ctx.submissionData
      ctx.achievementNumber ctx.walletAddress ctx.rpcUrl)
  else if ctx.submissionType = "secret" then
    some (validateSecretSubmission secretAnswersConfig ctx.achievementNumber nowMs
      ctx.submissionData.secretAnswer)
  else if ctx.submissionType = "contract" then
    if ctx.achievementNumber = "0046" then
      let contractAddrOk := match ctx.submissionData.contractAddress with
        | some a => a ≠ "" && ext.isValidEthereumAddress a
        | none => false
      if !contractAddrOk then
        some { passed := false, retryAllowed := true
               error := some "Valid contract address is required for achievement 0046" }
      else
        some (verifyUpgradeableContract chain ext ctx.rpcUrl
          (jsOrStr ctx.submissionData.contractAddress "") ctx.walletAddress)
    else
      some { passed := false, retryAllowed := false
             error := some "Contract validation not yet implemented for this achievement" }
  else if ctx.submissionType = "custom" then
    some { passed := false, retryAllowed := false
           error := some "Custom validation not yet implemented" }
  else
    some { passed := false, retryAllowed := false, error := some "Unknown submission type" }

/-- The static achievement catalog: achievement number to expected kind. -/
def ACHIEVEMENT_TYPES : List (String × String) := [
  ("0001", "quiz"), ("0002", "quiz"), ("0003", "quiz"), ("0004", "quiz"),
  ("0005", "transaction"),
  ("0021", "quiz"), ("0022", "quiz"), ("0023", "quiz"), ("0024", "quiz"),
  ("0025", "transaction"),
  ("0031", "quiz"), ("0032", "quiz"),
  ("0033", "transaction"),
  ("0041", "quiz"), ("0042", "quiz"),
  ("0043", "transaction"),
  ("0044", "quiz"), ("0045", "quiz"),
  ("0046", "contract"),
  ("0051", "quiz"), ("0052", "quiz"), ("0053", "quiz"), ("0054", "quiz"),
  ("1001", "secret"), ("1002", "secret"), ("1003", "secret"), ("1004", "secret"),
  ("1005", "secret"),
  ("1101", "secret")]

/-- Catalog lookup. -/
def achievementTypeOf (achievementNumber : String) : Option String :=
  (ACHIEVEMENT_TYPES.find? (fun p => p.1 == achievementNumber)).map (·.2)

/-- Convert an achievement number to a task code, JS parseInt with radix 10;
none models NaN. -/
def achievementNumberToTaskCode (achievementNumber : String) : Option Int :=
  jsParseInt false achievementNumber

/-- Convert a task code back to a zero-padded achievement number. -/
def taskCodeToAchievementNumber (taskCode : Int) (padding : Nat := 4) : String :=
  padStart (toString taskCode) padding '0'

/-- JS short-circuit or binding of an optional number as a nullable column:
zero is falsy and is stored as NULL. -/
def qFalsyToNone : Option ℚ → Option ℚ
  | some q => if q = 0 then none else some q
  | none => none

/-- A stored training-completion row (audit-only columns omitted). -/
structure CompletionRow where
  wallet_address : String
  achievement_number : String
  task_code : Option Int
  submission_type : String
  score : Option ℚ
  max_score : Option ℚ
  passed : Bool
  voucher_signature : Option String

/-- Database state: completion rows, most recent first, plus the wallet
table. -/
structure Db where
  completions : List CompletionRow := []
  wallets : List String := []

/-- Read the most recent completion with passed true for the wallet and
achievement pair. -/
def getTrainingCompletion (db : Db) (walletAddress achievementNumber : String) :
    Option CompletionRow :=
  db.completions.find? fun r =>
    r.wallet_address == walletAddress && r.achievement_number == achievementNumber && r.passed

/-- Insert-or-ignore into the wallet table. -/
def createWalletData (db : Db) (walletAddress : String) : Db :=
  if db.wallets.contains walletAddress then db
  else { db with wallets := walletAddress :: db.wallets }

/-- Insert a completion attempt; a zero score or max score is bound as NULL
by the short-circuit or in the source. -/
def createTrainingCompletion (db : Db) (row : CompletionRow) : Db :=
  { db with completions :=
      { row with score := qFalsyToNone row.score
                 max_score := qFalsyToNone row.max_score } :: db.completions }

/-- A submit request body; absent properties are none. -/
structure SubmitRequest where
  walletAddress : Option String := none
  achievementNumber : Option String := none
  submissionType : Option String := none
  submissionData : Option SubmissionData := none
  timeSpent : Option ℚ := none

/-- The JSON response of the submit route, together with its HTTP status. -/
structure SubmitResponse where
  status : Nat
  success : Bool
  error : Option String := none
  results : Option VResult := none
  voucher : Option (Option Int × String) := none
  signature : Option String := none
  contractAddress : Option String := none
  chainId : Option Int := none

/-- The valid submission types accepted by the route. -/
def validSubmissionTypes : List String :=
  ["quiz", "transaction", "contract", "custom", "secret"]

/-- The submit route handler: request-shape validation, catalog existence,
the kind-mismatch gate, task-code conversion, the idempotence gate (most
recent passed completion), RPC-endpoint selection, validator dispatch,
persistence of every attempt, and voucher signing only on a pass.  A raised
validator error maps to the generic 500 response with the database
untouched. -/
def submitHandler (chain : Chain) (ext : EthersExt) (env : Env)
    (quizConfig : String → Option QuizData) (secretAnswersConfig : String → Option String)
    (nowMs : Nat) (db : Db) (req : SubmitRequest) : SubmitResponse × Db :=
  match strFalsyToNone req.walletAddress with
  | none => ({ status := 400, success := false, error := some "Invalid wallet address" }, db)
  | some walletAddress =>
    if !ext.isValidEthereumAddress walletAddress then
      ({ status := 400, success := false, error := some "Invalid wallet address" }, db)
    else
      match strFalsyToNone req.achievementNumber with
      | none =>
        ({ status := 400, success := false, error := some "Invalid achievement number" }, db)
      | some achievementNumber =>
        let typeInvalid := match req.submissionType with
          | none => true
          | some st => !(validSubmissionTypes.contains st)
        if typeInvalid then
          ({ status := 400, success := false
             error := some "Invalid submission type. Must be one of: quiz, transaction, contract, custom, secret" }, db)
        else
          let submissionType := (req.submissionType).getD ""
          match req.submissionData with
          | none =>
            ({ status := 400, success := false, error := some "Submission data is required" }, db)
          | some submissionData =>
            match achievementTypeOf achievementNumber with
            | none =>
              ({ status := 400, success := false
                 error := some "Invalid achievement number - achievement does not exist" }, db)
            | some expectedType =>
              if submissionType ≠ expectedType then
                ({ status := 400, success := false
                   error := some ("Invalid submission type for achievement " ++ achievementNumber
                     ++ ". Expected: " ++ expectedType) }, db)
              else
                let taskCode := achievementNumberToTaskCode achievementNumber
                if (match taskCode with | some t => decide (t ≤ 0) | none => false) then
                  ({ status := 400, success := false
                     error := some "Invalid achievement number format" }, db)
                else
                  let normalizedWallet := ext.normalizeAddress walletAddress
                  match getTrainingCompletion db normalizedWallet achievementNumber with
                  | some _ =>
                    ({ status := 409, success := false
                       error := some "Achievement already completed successfully" }, db)
                  | none =>
                    let rpcUrl :=
                      if submissionType = "transaction" ∨ submissionType = "contract" then
                        match submissionData.chainId with
                        | some cid =>
                          if cid = 33101 then jsOrStr env.rpcUrlTestnet env.rpcUrl
                          else if cid = 32769 then jsOrStr env.rpcUrlMainnet env.rpcUrl
                          else if cid ≠ 0 then jsOrStr env.rpcUrlTestnet env.rpcUrl
                          else jsOrStr env.rpcUrlTestnet env.rpcUrl
                        | none => jsOrStr env.rpcUrlTestnet env.rpcUrl
                      else jsOrStr env.rpcUrlMainnet env.rpcUrl
                    let ctx : ValidationContext :=
                      { achievementNumber := achievementNumber
                        walletAddress := normalizedWallet
                        rpcUrl := rpcUrl
                        submissionType := submissionType
                        submissionData := submissionData
                        timeSpent := req.timeSpent }
                    match validateSubmission chain ext (some env) quizConfig
                        secretAnswersConfig nowMs ctx with
                    | none =>
                      ({ status := 500, success := false
                         error := some "Failed to process achievement submission" }, db)
                    | some validationResult =>
                      let db1 := createWalletData db normalizedWallet
                      let signature :=
                        if validationResult.passed then
                          some (ext.signVoucher taskCode normalizedWallet)
                        else none
                      let voucher :=
                        if validationResult.passed then some (taskCode, normalizedWallet)
                        else none
                      let db2 := createTrainingCompletion db1
                        { wallet_address := normalizedWallet
                          achievement_number := achievementNumber
                          task_code := taskCode
                          submission_type := submissionType
                          score := validationResult.score
                          max_score := validationResult.maxScore
                          passed := validationResult.passed
                          voucher_signature := signature }
                      let responseChainId : Option Int :=
                        let dflt := jsParseInt false env.chainId
                        if submissionType = "transaction" ∨ submissionType = "contract" then
                          match submissionData.chainId with
                          | some cid => if cid = 0 then dflt else some cid
                          | none => dflt
                        else dflt
                      ({ status := 200
                         success := validationResult.passed
                         voucher := voucher
                         signature := signature
                         contractAddress := some env.contractAddress
                         chainId := responseChainId
                         results := some validationResult
                         error := if validationResult.passed then none
                                  else validationResult.error }, db2)

/-- One step of the submit endpoint with its per-request world: the chain
oracle, the loaded external documents and the clock may all differ between
requests. -/
structure SubmitStep where
  chain : Chain
  ext : EthersExt
  env : Env
  quizConfig : String → Option QuizData
  secretAnswersConfig : String → Option String
  nowMs : Nat
  req : SubmitRequest

/-- Run a sequence of submissions through the endpoint, threading the
database. -/
def runSubmissions (steps : List SubmitStep) (db : Db) : Db :=
  steps.foldl
    (fun d s => (submitHandler s.chain s.ext s.env s.quizConfig s.secretAnswersConfig
      s.nowMs d s.req).2) db

/-- Number of stored completion rows for the wallet and achievement pair that
are marked passed. -/
def passedCount (db : Db) (walletAddress achievementNumber : String) : Nat :=
  (db.completions.filter fun r =>
    r.wallet_address == walletAddress && r.achievement_number == achievementNumber
      && r.passed).length

/-- A validation result in which a pass is terminal: once passed is true no
retry is offered. -/
def passTerminal (r : VResult) : Prop := r.passed = true → r.retryAllowed = false

/-- Whether an answer contains no duplicated concept pair and no duplicated
true/false classification; under this condition a grader cannot count one
submitted entry more than once. -/
def UserAnswer.noDuplicateEntries : UserAnswer → Prop
  | .interactive _ resp => resp.pairs.Nodup ∧ resp.classifications.Nodup
  | _ => True

/-- A chain oracle whose every call raises a network error; used to exercise
paths that must not consult the blockchain. -/
def unreachableChain : Chain where
  getTransactionByHash _ _ := .threw
  getTransactionReceipt _ _ := .threw
  ethCall _ _ _ := .threw
  getStorageAt _ _ _ := .threw

/-- Simple external collaborators for concrete evaluations. -/
def sampleExt : EthersExt where
  isValidEthereumAddress s :=
    (match s.toList with
     | '0' :: 'x' :: rest => rest.length == 40
     | _ => false)
  normalizeAddress := jsToLower
  signVoucher _ w := String.append "signed:" w

/-- A concrete environment for concrete evaluations. -/
def sampleEnv : Env := { rpcUrl := "rpc", contractAddress := "0xregistry", chainId := "32769" }

/-- A syntactically plausible wallet address. -/
def sampleWallet : String := "0x" ++ String.mk (List.replicate 40 'a')

/-- A secrets document answering SECRET for every achievement. -/
def constSecretConfig : String → Option String := fun _ => some "SECRET"

/-- An empty quiz document. -/
def noQuizConfig : String → Option QuizData := fun _ => none

/-- An empty secrets document. -/
def noSecretConfig : String → Option String := fun _ => none

/-- A two-question bank used to exercise the quiz validator concretely. -/
def sampleQuiz : QuizData where
  questions := [
    { id := "q1", correctAnswer := .str "A", points := 6 },
    { id := "q2", correctAnswer := .str "B", points := 6 }]
  passingScore := 80

/-- A quiz document configuring sampleQuiz for achievement 0001. -/
def sampleQuizConfig : String → Option QuizData :=
  fun n => if n = "0001" then some sampleQuiz else none

/-- Answers matching both questions of sampleQuiz up to case. -/
def sampleAnswersAllRight : String → Option UserAnswer := fun id =>
  if id = "q1" then some (.plain "a")
  else if id = "q2" then some (.plain "b")
  else none

/-- A one-question bank whose single concept-matching question is worth 10
points and expects a single pair. -/
def dupPairsQuiz : QuizData where
  questions := [
    { id := "q1"
      correctAnswer := .interactive
        { type := "concept-matching"
          data := { pairs := some [{ conceptId := "c1", definitionId := "d1" }] } }
      points := 10 }]
  passingScore := 100

/-- A quiz document configuring dupPairsQuiz for every achievement. -/
def dupPairsQuizConfig : String → Option QuizData := fun _ => some dupPairsQuiz

/-- Answers submitting the sole correct pair twice. -/
def dupPairsAnswers : String → Option UserAnswer := fun _ =>
  some (.interactive "concept-matching"
    { pairs := [{ conceptId := "c1", definitionId := "d1" },
                { conceptId := "c1", definitionId := "d1" }] })

/-- An interactive response carrying a timeline type tag and a one-element
sequence; shared input for comparing the two positional graders. -/
def timelineTaggedAnswer : UserAnswer :=
  .interactive "timeline-builder" { sequence := ["a"] }

/-- A correct-answer specification with a one-element expected sequence. -/
def oneStepSequenceSpec : InteractiveCorrectAnswer where
  type := "timeline-builder"
  data := { sequence := some ["a"] }

/-- A secret validation context that passes against constSecretConfig. -/
def passingSecretCtx : ValidationContext where
  achievementNumber := "1001"
  walletAddress := sampleWallet
  rpcUrl := "rpc"
  submissionType := "secret"
  submissionData := { secretAnswer := some "SECRET" }

/-- A correct-answer specification with a single expected concept pair. -/
def conceptPairSpec : InteractiveCorrectAnswer where
  type := "concept-matching"
  data := { pairs := some [{ conceptId := "c1", definitionId := "d1" }] }

/-! Theorems -/

/-- C6: a transaction submission whose hash does not match the strict
pattern (0x followed by exactly 64 hexadecimal characters) is answered with
the fixed invalid-format failure, identically for every chain oracle,
environment, wallet and endpoint, so the gate fires before any RPC call can
occur. -/
theorem txHash_format_gate (chain : Chain) (ext : EthersExt) (envOpt : Option Env)
    (sub : SubmissionData) (achievementNumber walletAddress rpcUrl h : String)
    (hh : sub.transactionHash = some h) (hpat : txIdPatternTest h = false) :
    validateTransactionSubmission chain ext envOpt sub achievementNumber walletAddress rpcUrl
      = invalidTxFormatResult := by
  unfold validateTransactionSubmission
  rw [hh]
  simp [hpat]

/-- Witness for C6 at a concrete malformed hash against a dead chain. -/
theorem txHash_format_gate_witness :
    validateTransactionSubmission unreachableChain sampleExt none
        { transactionHash := some "0x1234" } "0005" sampleWallet "rpc"
      = invalidTxFormatResult :=
  txHash_format_gate unreachableChain sampleExt none
    { transactionHash := some "0x1234" } "0005" sampleWallet "rpc" "0x1234" rfl (by decide)

/-- Shared helper: after the hard cutoff every 1101 secret submission fails
with no retry, in both the unconfigured and the configured branch. -/
theorem secret_1101_expired (secretAnswersConfig : String → Option String)
    (nowMs : Nat) (secretAnswer : Option String) (hnow : nowMs > launchCutoffMs) :
    (validateSecretSubmission secretAnswersConfig "1101" nowMs secretAnswer).passed = false
    ∧ (validateSecretSubmission secretAnswersConfig "1101" nowMs secretAnswer).retryAllowed
        = false := by
  unfold validateSecretSubmission
  cases hc : strFalsyToNone (secretAnswersConfig "1101") with
  | none => exact ⟨rfl, rfl⟩
  | some expected => simp [hnow]

/-- C9: after the hard cutoff timestamp every submission for the launch
secret achievement 1101 fails with passed false and retryAllowed false,
whatever secret string was submitted and whether or not it matches the
configured answer. -/
theorem launch_secret_expired_nonretryable (secretAnswersConfig : String → Option String)
    (nowMs : Nat) (secretAnswer : Option String) (hnow : nowMs > launchCutoffMs) :
    (validateSecretSubmission secretAnswersConfig "1101" nowMs secretAnswer).passed = false
    ∧ (validateSecretSubmission secretAnswersConfig "1101" nowMs secretAnswer).retryAllowed
        = false :=
  secret_1101_expired secretAnswersConfig nowMs secretAnswer hnow

/-- Witness for C9: one millisecond after the cutoff, even the correct
configured secret fails non-retryably (before the cutoff the same submission
passes, so the failure is due to the clock alone). -/
theorem launch_secret_expired_nonretryable_witness :
    launchCutoffMs + 1 > launchCutoffMs
    ∧ (validateSecretSubmission constSecretConfig "1101" launchCutoffMs (some "SECRET")).passed
        = true
    ∧ (validateSecretSubmission constSecretConfig "1101" (launchCutoffMs + 1)
        (some "SECRET")).passed = false
    ∧ (validateSecretSubmission constSecretConfig "1101" (launchCutoffMs + 1)
        (some "SECRET")).retryAllowed = false :=
  ⟨Nat.lt_succ_self _, by decide,
    (launch_secret_expired_nonretryable constSecretConfig (launchCutoffMs + 1) (some "SECRET")
      (Nat.lt_succ_self _)).1,
    (launch_secret_expired_nonretryable constSecretConfig (launchCutoffMs + 1) (some "SECRET")
      (Nat.lt_succ_self _)).2⟩

/-- C10: for every catalog entry, converting the achievement number to a
task code and back with the default 4-digit padding returns the original
identifier. -/
theorem achievement_task_code_round_trip (p : String × String)
    (hp : p ∈ ACHIEVEMENT_TYPES) :
    (achievementNumberToTaskCode p.1).map (fun t => taskCodeToAchievementNumber t)
      = some p.1 := by
  fin_cases hp <;> rfl

/-- Witness for C10 at the first catalog entry. -/
theorem achievement_task_code_round_trip_witness :
    ("0001", "quiz") ∈ ACHIEVEMENT_TYPES
    ∧ (achievementNumberToTaskCode "0001").map (fun t => taskCodeToAchievementNumber t)
        = some "0001" :=
  ⟨by decide, achievement_task_code_round_trip ("0001", "quiz") (by decide)⟩

/-- C7 counterexample: on the single input triple consisting of a
timeline-tagged answer, a one-element expected sequence and 10 points, the
timeline grader awards full credit while the drag-and-drop grader awards
zero, so the two graders do not compute the same score on every input
triple. -/
theorem dragdrop_timeline_differ_on_tagged_input :
    gradeDragDropPuzzle timelineTaggedAnswer oneStepSequenceSpec 10 = 0
    ∧ gradeTimelineBuilder timelineTaggedAnswer oneStepSequenceSpec 10 = 10
    ∧ gradeDragDropPuzzle timelineTaggedAnswer oneStepSequenceSpec 10
        ≠ gradeTimelineBuilder timelineTaggedAnswer oneStepSequenceSpec 10 := by
  refine ⟨?_, ?_, ?_⟩ <;>
    norm_num [gradeDragDropPuzzle, gradeTimelineBuilder, timelineTaggedAnswer,
      oneStepSequenceSpec, countCorrectPositions, String.ext_iff] <;>
    intros <;> simp_all

/-- C7 amended: the two graders run the identical position-indexed
partial-credit algorithm and differ only in the accepted type tag; tagging
the same response for each grader yields equal awarded scores, equal to the
common formula (matching positions over expected length, times points)
whenever the expected sequence is nonempty. -/
theorem dragdrop_equals_timeline_up_to_tag (resp : InteractiveResponse)
    (ca : InteractiveCorrectAnswer) (pts : ℚ) :
    gradeDragDropPuzzle (.interactive "drag-drop-puzzle" resp) ca pts
      = gradeTimelineBuilder (.interactive "timeline-builder" resp) ca pts
    ∧ (∀ cseq, ca.data.sequence = some cseq → cseq.length ≠ 0 →
        gradeDragDropPuzzle (.interactive "drag-drop-puzzle" resp) ca pts
          = (countCorrectPositions resp.sequence cseq : ℚ) / (cseq.length : ℚ) * pts) := by
  constructor
  · unfold gradeDragDropPuzzle gradeTimelineBuilder
    simp
  · intro cseq hc hlen
    unfold gradeDragDropPuzzle
    simp [hc, hlen]

/-- Witness for the amended C7 at a concrete retagged pair of inputs. -/
theorem dragdrop_equals_timeline_up_to_tag_witness :
    gradeDragDropPuzzle (.interactive "drag-drop-puzzle" { sequence := ["a"] })
        oneStepSequenceSpec 10
      = gradeTimelineBuilder (.interactive "timeline-builder" { sequence := ["a"] })
        oneStepSequenceSpec 10
    ∧ oneStepSequenceSpec.data.sequence = some ["a"]
    ∧ (["a"] : List String).length ≠ 0
    ∧ gradeDragDropPuzzle (.interactive "drag-drop-puzzle" { sequence := ["a"] })
        oneStepSequenceSpec 10
      = (countCorrectPositions ["a"] ["a"] : ℚ) / ((["a"] : List String).length : ℚ) * 10 :=
  ⟨(dragdrop_equals_timeline_up_to_tag { sequence := ["a"] } oneStepSequenceSpec 10).1,
    rfl, by decide,
    (dragdrop_equals_timeline_up_to_tag { sequence := ["a"] } oneStepSequenceSpec 10).2
      ["a"] rfl (by decide)⟩

/-- C2: for a quiz submission whose achievement has a configured question
bank with positive summed points, the validator reports the summed
per-question score and the summed maximum, and passes exactly when the
percentage score reaches the configured passing threshold (a percentage,
not an absolute score). -/
theorem quiz_pass_iff_percentage (quizConfig : String → Option QuizData)
    (achievementNumber : String) (a : String → Option UserAnswer) (ts : Option ℚ)
    (qd : QuizData) (r : VResult)
    (hqd : quizConfig achievementNumber = some qd)
    (hr : validateQuizSubmission quizConfig achievementNumber (some a) ts = some r)
    (hmax : 0 < quizMaxScore qd.questions) :
    r.score = some (quizTotalScore qd.questions a)
    ∧ r.maxScore = some (quizMaxScore qd.questions)
    ∧ r.passingScore = some qd.passingScore
    ∧ (r.passed = true ↔
        quizTotalScore qd.questions a / quizMaxScore qd.questions * 100 ≥ qd.passingScore) := by
  unfold validateQuizSubmission at hr
  rw [hqd] at hr
  simp only [Option.some.injEq] at hr
  subst hr
  refine ⟨rfl, rfl, rfl, ?_⟩
  simp [quizResult, hmax]

/-- Witness for C2 at a concrete two-question bank answered correctly. -/
theorem quiz_pass_iff_percentage_witness :
    sampleQuizConfig "0001" = some sampleQuiz
    ∧ validateQuizSubmission sampleQuizConfig "0001" (some sampleAnswersAllRight) none
        = some (quizResult sampleQuiz sampleAnswersAllRight none)
    ∧ 0 < quizMaxScore sampleQuiz.questions
    ∧ ((quizResult sampleQuiz sampleAnswersAllRight none).passed = true ↔
        quizTotalScore sampleQuiz.questions sampleAnswersAllRight
          / quizMaxScore sampleQuiz.questions * 100 ≥ sampleQuiz.passingScore) :=
  ⟨rfl, rfl, by norm_num [quizMaxScore, sampleQuiz],
    (quiz_pass_iff_percentage sampleQuizConfig "0001" sampleAnswersAllRight none sampleQuiz
      (quizResult sampleQuiz sampleAnswersAllRight none) rfl rfl
      (by norm_num [quizMaxScore, sampleQuiz])).2.2.2⟩

/-- C3 counterexample: submitting the sole correct concept pair twice makes
the concept-matching grader count it twice, so the validator reports a total
score of 20 against a maximum score of 10. -/
theorem quiz_total_score_exceeds_max :
    (validateQuizSubmission dupPairsQuizConfig "0001" (some dupPairsAnswers) none).map
        (fun r => (r.score, r.maxScore))
      = some (some 20, some 10)
    ∧ ¬ ((20 : ℚ) ≤ (10 : ℚ)) := by
  constructor
  · norm_num [validateQuizSubmission, dupPairsQuizConfig, quizResult, quizTotalScore,
      quizMaxScore, quizQuestionGrades, dupPairsQuiz, dupPairsAnswers, gradeQuestion,
      gradeInteractiveAnswer, gradeConceptMatching, pairMatches, answerFalsy,
      isInteractiveAnswer, quizCorrectCount]
    norm_num [gradeWordJumble]
    split_ifs with h1 h2
    · exact absurd h1 (by decide)
    · exact absurd h2 (by decide)
    · rfl
  · norm_num

/-- Nonnegativity of a partial-credit product. -/
theorem partial_credit_nonneg (k n : Nat) (pts : ℚ) (hpts : 0 ≤ pts) :
    0 ≤ (k : ℚ) / (n : ℚ) * pts :=
  mul_nonneg (div_nonneg (Nat.cast_nonneg k) (Nat.cast_nonneg n)) hpts

/-- A partial-credit product is bounded by the point value when the counted
numerator does not exceed the denominator. -/
theorem partial_credit_le (k n : Nat) (pts : ℚ) (hpts : 0 ≤ pts) (hk : k ≤ n)
    (hn : n ≠ 0) : (k : ℚ) / (n : ℚ) * pts ≤ pts := by
  have hn0 : (0 : ℚ) < (n : ℚ) := by exact_mod_cast Nat.pos_of_ne_zero hn
  have h1 : (k : ℚ) / (n : ℚ) ≤ 1 := by
    rw [div_le_one hn0]
    exact_mod_cast hk
  calc (k : ℚ) / (n : ℚ) * pts ≤ 1 * pts := mul_le_mul_of_nonneg_right h1 hpts
    _ = pts := one_mul pts

/-- The positional tally never exceeds the expected length. -/
theorem countCorrectPositions_le (u c : List String) :
    countCorrectPositions u c ≤ c.length := by
  induction u generalizing c with
  | nil => cases c <;> simp [countCorrectPositions]
  | cons a us ih =>
    cases c with
    | nil => simp [countCorrectPositions]
    | cons b cs =>
      have := ih cs
      simp only [countCorrectPositions, List.length_cons]
      split <;> omega

/-- A submitted pair matches exactly when it occurs among the expected
pairs. -/
theorem pairMatches_eq_mem (cps : List MatchPair) (up : MatchPair) :
    pairMatches cps up = true ↔ up ∈ cps := by
  unfold pairMatches
  rw [List.any_eq_true]
  constructor
  · rintro ⟨cp, hmem, hcp⟩
    simp only [Bool.and_eq_true, beq_iff_eq] at hcp
    obtain ⟨h1, h2⟩ := hcp
    have hcpu : cp = up := by cases cp; cases up; simp_all
    exact hcpu ▸ hmem
  · intro h
    exact ⟨up, h, by simp⟩

/-- A correctly classified statement occurs among the expected
classifications. -/
theorem classificationCorrect_mem (ccs : List Classification) (uc : Classification)
    (h : classificationCorrect ccs uc = true) : uc ∈ ccs := by
  unfold classificationCorrect at h
  cases hf : ccs.find? (fun cc => cc.id == uc.id) with
  | none => rw [hf] at h; exact absurd h (by simp)
  | some cc =>
    rw [hf] at h
    have hid := List.find?_some hf
    have hmem := List.mem_of_find?_eq_some hf
    simp only [beq_iff_eq] at hid h
    have hccu : cc = uc := by cases cc; cases uc; simp_all
    exact hccu ▸ hmem

/-- A duplicate-free list filtered into a target list is no longer than the
target. -/
theorem length_filter_le_of_nodup {α : Type} (l target : List α) (p : α → Bool)
    (hnd : l.Nodup) (hp : ∀ x ∈ l, p x = true → x ∈ target) :
    (l.filter p).length ≤ target.length := by
  have hsub : l.filter p ⊆ target := by
    intro x hx
    exact hp x (List.mem_of_mem_filter hx) (List.of_mem_filter hx)
  exact ((hnd.filter p).subperm hsub).length_le

/-- The word-jumble grader stays between zero and the point value. -/
theorem gradeWordJumble_bounds (ua : UserAnswer) (ca : InteractiveCorrectAnswer)
    (pts : ℚ) (hpts : 0 ≤ pts) :
    0 ≤ gradeWordJumble ua ca pts ∧ gradeWordJumble ua ca pts ≤ pts := by
  unfold gradeWordJumble
  constructor <;> (repeat' split) <;> simp_all

/-- The concept-matching grader is nonnegative for nonnegative points. -/
theorem gradeConceptMatching_nonneg (ua : UserAnswer) (ca : InteractiveCorrectAnswer)
    (pts : ℚ) (hpts : 0 ≤ pts) : 0 ≤ gradeConceptMatching ua ca pts := by
  unfold gradeConceptMatching
  repeat' split
  all_goals first
    | exact le_rfl
    | exact hpts
    | exact partial_credit_nonneg _ _ pts hpts

/-- Without duplicated submitted pairs, the concept-matching grader is
bounded by the point value. -/
theorem gradeConceptMatching_le (ua : UserAnswer) (ca : InteractiveCorrectAnswer)
    (pts : ℚ) (hpts : 0 ≤ pts) (hnd : ua.noDuplicateEntries) :
    gradeConceptMatching ua ca pts ≤ pts := by
  cases ua with
  | plain s => simpa [gradeConceptMatching] using hpts
  | malformed => simpa [gradeConceptMatching] using hpts
  | interactive tag resp =>
    obtain ⟨hndp, _⟩ := hnd
    simp only [gradeConceptMatching]
    by_cases htag : tag = "concept-matching"
    · simp only [htag, if_pos]
      cases hp : ca.data.pairs with
      | none => exact hpts
      | some cps =>
        by_cases hlen : cps.length = 0
        · simp only [hlen, if_pos]
          exact hpts
        · simp only [hlen, if_neg]
          refine partial_credit_le _ _ _ hpts ?_ hlen
          exact length_filter_le_of_nodup _ _ _ hndp
            (fun x _ hx => (pairMatches_eq_mem cps x).mp hx)
    · simp only [htag, if_neg]
      exact hpts

/-- The positional graders are nonnegative for nonnegative points. -/
theorem gradeTimelineBuilder_nonneg (ua : UserAnswer) (ca : InteractiveCorrectAnswer)
    (pts : ℚ) (hpts : 0 ≤ pts) : 0 ≤ gradeTimelineBuilder ua ca pts := by
  unfold gradeTimelineBuilder
  repeat' split
  all_goals first
    | exact le_rfl
    | exact hpts
    | exact partial_credit_nonneg _ _ pts hpts

/-- The timeline grader is bounded by the point value. -/
theorem gradeTimelineBuilder_le (ua : UserAnswer) (ca : InteractiveCorrectAnswer)
    (pts : ℚ) (hpts : 0 ≤ pts) : gradeTimelineBuilder ua ca pts ≤ pts := by
  unfold gradeTimelineBuilder
  repeat' split
  all_goals try exact hpts
  case _ resp _ cseq hlen =>
    exact partial_credit_le _ _ _ hpts (countCorrectPositions_le _ _) hlen

/-- The drag-and-drop grader is nonnegative for nonnegative points. -/
theorem gradeDragDropPuzzle_nonneg (ua : UserAnswer) (ca : InteractiveCorrectAnswer)
    (pts : ℚ) (hpts : 0 ≤ pts) : 0 ≤ gradeDragDropPuzzle ua ca pts := by
  unfold gradeDragDropPuzzle
  repeat' split
  all_goals first
    | exact le_rfl
    | exact hpts
    | exact partial_credit_nonneg _ _ pts hpts

/-- The drag-and-drop grader is bounded by the point value. -/
theorem gradeDragDropPuzzle_le (ua : UserAnswer) (ca : InteractiveCorrectAnswer)
    (pts : ℚ) (hpts : 0 ≤ pts) : gradeDragDropPuzzle ua ca pts ≤ pts := by
  unfold gradeDragDropPuzzle
  repeat' split
  all_goals try exact hpts
  case _ resp _ cseq hlen =>
    exact partial_credit_le _ _ _ hpts (countCorrectPositions_le _ _) hlen

/-- The true/false grader is nonnegative for nonnegative points. -/
theorem gradeTrueFalseStatements_nonneg (ua : UserAnswer) (ca : InteractiveCorrectAnswer)
    (pts : ℚ) (hpts : 0 ≤ pts) : 0 ≤ gradeTrueFalseStatements ua ca pts := by
  unfold gradeTrueFalseStatements
  repeat' split
  all_goals first
    | exact le_rfl
    | exact hpts
    | exact partial_credit_nonneg _ _ pts hpts

/-- Without duplicated submitted classifications, the true/false grader is
bounded by the point value. -/
theorem gradeTrueFalseStatements_le (ua : UserAnswer) (ca : InteractiveCorrectAnswer)
    (pts : ℚ) (hpts : 0 ≤ pts) (hnd : ua.noDuplicateEntries) :
    gradeTrueFalseStatements ua ca pts ≤ pts := by
  cases ua with
  | plain s => simpa [gradeTrueFalseStatements] using hpts
  | malformed => simpa [gradeTrueFalseStatements] using hpts
  | interactive tag resp =>
    obtain ⟨_, hndc⟩ := hnd
    simp only [gradeTrueFalseStatements]
    by_cases htag : tag = "true-false-statements"
    · simp only [htag, if_pos]
      cases hp : ca.data.classifications with
      | none => exact hpts
      | some ccs =>
        by_cases hlen : ccs.length = 0
        · simp only [hlen, if_pos]
          exact hpts
        · simp only [hlen, if_neg]
          refine partial_credit_le _ _ _ hpts ?_ hlen
          exact length_filter_le_of_nodup _ _ _ hndc
            (fun x _ hx => classificationCorrect_mem ccs x hx)
    · simp only [htag, if_neg]
      exact hpts

/-- The interactive dispatch is nonnegative for nonnegative points. -/
theorem gradeInteractiveAnswer_nonneg (ca : InteractiveCorrectAnswer) (ua : UserAnswer)
    (pts : ℚ) (hpts : 0 ≤ pts) : 0 ≤ gradeInteractiveAnswer ca ua pts := by
  unfold gradeInteractiveAnswer
  repeat' split
  all_goals first
    | exact le_rfl
    | exact gradeWordJumble_bounds ua ca pts hpts |>.1
    | exact gradeConceptMatching_nonneg ua ca pts hpts
    | exact gradeTimelineBuilder_nonneg ua ca pts hpts
    | exact gradeTrueFalseStatements_nonneg ua ca pts hpts
    | exact gradeDragDropPuzzle_nonneg ua ca pts hpts

/-- The interactive dispatch is bounded by the point value when the answer
has no duplicated entries. -/
theorem gradeInteractiveAnswer_le (ca : InteractiveCorrectAnswer) (ua : UserAnswer)
    (pts : ℚ) (hpts : 0 ≤ pts) (hnd : ua.noDuplicateEntries) :
    gradeInteractiveAnswer ca ua pts ≤ pts := by
  unfold gradeInteractiveAnswer
  repeat' split
  all_goals first
    | exact hpts
    | exact gradeWordJumble_bounds ua ca pts hpts |>.2
    | exact gradeConceptMatching_le ua ca pts hpts hnd
    | exact gradeTimelineBuilder_le ua ca pts hpts
    | exact gradeTrueFalseStatements_le ua ca pts hpts hnd
    | exact gradeDragDropPuzzle_le ua ca pts hpts

/-- A question grade is nonnegative for a nonnegative point value. -/
theorem gradeQuestion_score_nonneg (q : QuizQuestion) (oa : Option UserAnswer)
    (hpts : 0 ≤ q.points) : 0 ≤ (gradeQuestion q oa).score := by
  unfold gradeQuestion
  repeat' split
  all_goals first
    | exact le_rfl
    | exact hpts
    | exact gradeInteractiveAnswer_nonneg _ _ _ hpts

/-- A question grade is bounded by the question's point value when the
submitted answer has no duplicated entries. -/
theorem gradeQuestion_score_le (q : QuizQuestion) (oa : Option UserAnswer)
    (hpts : 0 ≤ q.points) (hnd : ∀ ua, oa = some ua → ua.noDuplicateEntries) :
    (gradeQuestion q oa).score ≤ q.points := by
  cases oa with
  | none => simpa [gradeQuestion] using hpts
  | some ua =>
    have hua := hnd ua rfl
    simp only [gradeQuestion]
    revert hua
    repeat' split
    all_goals intro hua
    all_goals first
      | exact hpts
      | exact le_rfl
      | exact gradeInteractiveAnswer_le _ _ _ hpts hua

/-- C3 amended: when every configured point value is nonnegative and no
submitted answer duplicates a concept pair or a true/false classification,
the validator reports a total score between zero and the summed maximum;
without the no-duplicate condition the bound fails, as the counterexample
shows, because the concept-matching and true/false graders count duplicated
correct entries repeatedly. -/
theorem quiz_reported_score_bounds (quizConfig : String → Option QuizData)
    (achievementNumber : String) (a : String → Option UserAnswer) (ts : Option ℚ)
    (qd : QuizData) (r : VResult)
    (hqd : quizConfig achievementNumber = some qd)
    (hr : validateQuizSubmission quizConfig achievementNumber (some a) ts = some r)
    (hpts : ∀ q ∈ qd.questions, 0 ≤ q.points)
    (hnd : ∀ id ua, a id = some ua → ua.noDuplicateEntries) :
    r.score = some (quizTotalScore qd.questions a)
    ∧ r.maxScore = some (quizMaxScore qd.questions)
    ∧ 0 ≤ quizTotalScore qd.questions a
    ∧ quizTotalScore qd.questions a ≤ quizMaxScore qd.questions := by
  unfold validateQuizSubmission at hr
  rw [hqd] at hr
  simp only [Option.some.injEq] at hr
  subst hr
  refine ⟨rfl, rfl, ?_, ?_⟩
  · unfold quizTotalScore quizQuestionGrades
    rw [List.map_map]
    apply List.sum_nonneg
    intro x hx
    obtain ⟨q, hq, rfl⟩ := List.mem_map.mp hx
    exact gradeQuestion_score_nonneg q (a q.id) (hpts q hq)
  · unfold quizTotalScore quizQuestionGrades quizMaxScore
    rw [List.map_map]
    apply List.sum_le_sum
    intro q hq
    exact gradeQuestion_score_le q (a q.id) (hpts q hq) (fun ua h => hnd q.id ua h)

/-- The concrete sample answers contain no duplicated entries. -/
theorem sampleAnswers_noDup :
    ∀ id ua, sampleAnswersAllRight id = some ua → ua.noDuplicateEntries := by
  intro id ua h
  unfold sampleAnswersAllRight at h
  split at h
  · cases h; trivial
  · split at h
    · cases h; trivial
    · exact absurd h (by simp)

/-- The concrete sample quiz has nonnegative point values. -/
theorem sampleQuiz_points_nonneg : ∀ q ∈ sampleQuiz.questions, 0 ≤ q.points := by
  intro q hq
  fin_cases hq <;> norm_num [sampleQuiz]

/-- Witness for the amended C3 at the concrete two-question bank. -/
theorem quiz_reported_score_bounds_witness :
    0 ≤ quizTotalScore sampleQuiz.questions sampleAnswersAllRight
    ∧ quizTotalScore sampleQuiz.questions sampleAnswersAllRight
        ≤ quizMaxScore sampleQuiz.questions :=
  ⟨(quiz_reported_score_bounds sampleQuizConfig "0001" sampleAnswersAllRight none sampleQuiz
      (quizResult sampleQuiz sampleAnswersAllRight none) rfl rfl
      sampleQuiz_points_nonneg sampleAnswers_noDup).2.2.1,
    (quiz_reported_score_bounds sampleQuizConfig "0001" sampleAnswersAllRight none sampleQuiz
      (quizResult sampleQuiz sampleAnswersAllRight none) rfl rfl
      sampleQuiz_points_nonneg sampleAnswers_noDup).2.2.2⟩

/-- Setting a position of the submitted sequence to the expected element at
that position never lowers the positional tally. -/
theorem countCorrectPositions_set_ge (u c : List String) (i : Nat) (x : String)
    (hx : c.get? i = some x) :
    countCorrectPositions u c ≤ countCorrectPositions (u.set i x) c := by
  induction u generalizing c i with
  | nil => simp [List.set]
  | cons a us ih =>
    cases c with
    | nil => simp at hx
    | cons b cs =>
      cases i with
      | zero =>
        simp only [List.get?_cons_zero, Option.some.injEq] at hx
        subst hx
        simp only [List.set, countCorrectPositions, if_true]
        split <;> omega
      | succ i2 =>
        simp only [List.get?_cons_succ] at hx
        have := ih cs i2 hx
        simp only [List.set, countCorrectPositions]
        omega

/-- Replacing a list entry with one satisfying the filter predicate never
lowers the filtered length. -/
theorem length_filter_set_ge {α : Type} (p : α → Bool) (l : List α) (i : Nat) (x : α)
    (hx : p x = true) :
    (l.filter p).length ≤ ((l.set i x).filter p).length := by
  induction l generalizing i with
  | nil => simp [List.set]
  | cons a tl ih =>
    cases i with
    | zero =>
      simp only [List.set, List.filter_cons, hx]
      split <;> simp
    | succ i2 =>
      have := ih i2
      simp only [List.set, List.filter_cons]
      split <;> simpa using this

/-- Partial credit is monotone in the counted numerator. -/
theorem partial_credit_mono (k1 k2 n : Nat) (pts : ℚ) (hpts : 0 ≤ pts) (hk : k1 ≤ k2) :
    (k1 : ℚ) / (n : ℚ) * pts ≤ (k2 : ℚ) / (n : ℚ) * pts := by
  apply mul_le_mul_of_nonneg_right _ hpts
  apply div_le_div_of_nonneg_right ?_ (Nat.cast_nonneg n)
  exact_mod_cast hk

/-- Appending a matching pair never lowers the concept-matching score. -/
theorem gradeConceptMatching_mono (resp : InteractiveResponse) (p : MatchPair)
    (ca : InteractiveCorrectAnswer) (cps : List MatchPair) (pts : ℚ)
    (hcps : ca.data.pairs = some cps) (hpts : 0 ≤ pts) (hp : pairMatches cps p = true) :
    gradeConceptMatching (.interactive "concept-matching" resp) ca pts
      ≤ gradeConceptMatching
          (.interactive "concept-matching" { resp with pairs := resp.pairs ++ [p] }) ca pts := by
  simp only [gradeConceptMatching, hcps, if_true, reduceIte]
  by_cases hlen : cps.length = 0
  · simp [hlen]
  · simp only [hlen, if_neg, if_false]
    rw [List.filter_append]
    have hone : (List.filter (pairMatches cps) [p]).length = 1 := by
      simp [List.filter, hp]
    rw [List.length_append, hone]
    exact partial_credit_mono _ _ _ pts hpts (Nat.le_add_right _ 1)

/-- Correcting one position never lowers the timeline score. -/
theorem gradeTimelineBuilder_mono (resp : InteractiveResponse) (i : Nat) (x : String)
    (ca : InteractiveCorrectAnswer) (cseq : List String) (pts : ℚ)
    (hseq : ca.data.sequence = some cseq) (hpts : 0 ≤ pts) (hx : cseq.get? i = some x) :
    gradeTimelineBuilder (.interactive "timeline-builder" resp) ca pts
      ≤ gradeTimelineBuilder
          (.interactive "timeline-builder" { resp with sequence := resp.sequence.set i x })
          ca pts := by
  simp only [gradeTimelineBuilder, hseq, if_true, reduceIte]
  by_cases hlen : cseq.length = 0
  · simp [hlen]
  · simp only [hlen, if_neg, if_false]
    exact partial_credit_mono _ _ _ pts hpts (countCorrectPositions_set_ge _ _ i x hx)

/-- Correcting one classification never lowers the true/false score. -/
theorem gradeTrueFalseStatements_mono (resp : InteractiveResponse) (i : Nat)
    (d : Classification) (ca : InteractiveCorrectAnswer) (ccs : List Classification)
    (pts : ℚ) (hccs : ca.data.classifications = some ccs) (hpts : 0 ≤ pts)
    (hd : classificationCorrect ccs d = true) :
    gradeTrueFalseStatements (.interactive "true-false-statements" resp) ca pts
      ≤ gradeTrueFalseStatements
          (.interactive "true-false-statements"
            { resp with classifications := resp.classifications.set i d }) ca pts := by
  simp only [gradeTrueFalseStatements, hccs, if_true, reduceIte]
  by_cases hlen : ccs.length = 0
  · simp [hlen]
  · simp only [hlen, if_neg, if_false]
    exact partial_credit_mono _ _ _ pts hpts
      (length_filter_set_ge (classificationCorrect ccs) _ i d hd)

/-- Correcting one position never lowers the drag-and-drop score. -/
theorem gradeDragDropPuzzle_mono (resp : InteractiveResponse) (i : Nat) (x : String)
    (ca : InteractiveCorrectAnswer) (cseq : List String) (pts : ℚ)
    (hseq : ca.data.sequence = some cseq) (hpts : 0 ≤ pts) (hx : cseq.get? i = some x) :
    gradeDragDropPuzzle (.interactive "drag-drop-puzzle" resp) ca pts
      ≤ gradeDragDropPuzzle
          (.interactive "drag-drop-puzzle" { resp with sequence := resp.sequence.set i x })
          ca pts := by
  simp only [gradeDragDropPuzzle, hseq, if_true, reduceIte]
  by_cases hlen : cseq.length = 0
  · simp [hlen]
  · simp only [hlen, if_neg, if_false]
    exact partial_credit_mono _ _ _ pts hpts (countCorrectPositions_set_ge _ _ i x hx)

/-- C8: the concept-matching, timeline-builder, true/false and drag-and-drop
graders are monotone: appending one more matching pair, or setting one
position or classification to the expected value, never decreases the
awarded score (point values are nonnegative in configuration). -/
theorem graders_monotone :
    (∀ (resp : InteractiveResponse) (p : MatchPair) (ca : InteractiveCorrectAnswer)
        (cps : List MatchPair) (pts : ℚ),
        ca.data.pairs = some cps → 0 ≤ pts → pairMatches cps p = true →
        gradeConceptMatching (.interactive "concept-matching" resp) ca pts
          ≤ gradeConceptMatching
              (.interactive "concept-matching" { resp with pairs := resp.pairs ++ [p] }) ca pts)
    ∧ (∀ (resp : InteractiveResponse) (i : Nat) (x : String)
        (ca : InteractiveCorrectAnswer) (cseq : List String) (pts : ℚ),
        ca.data.sequence = some cseq → 0 ≤ pts → cseq.get? i = some x →
        gradeTimelineBuilder (.interactive "timeline-builder" resp) ca pts
          ≤ gradeTimelineBuilder
              (.interactive "timeline-builder" { resp with sequence := resp.sequence.set i x })
              ca pts)
    ∧ (∀ (resp : InteractiveResponse) (i : Nat) (d : Classification)
        (ca : InteractiveCorrectAnswer) (ccs : List Classification) (pts : ℚ),
        ca.data.classifications = some ccs → 0 ≤ pts →
        classificationCorrect ccs d = true →
        gradeTrueFalseStatements (.interactive "true-false-statements" resp) ca pts
          ≤ gradeTrueFalseStatements
              (.interactive "true-false-statements"
                { resp with classifications := resp.classifications.set i d }) ca pts)
    ∧ (∀ (resp : InteractiveResponse) (i : Nat) (x : String)
        (ca : InteractiveCorrectAnswer) (cseq : List String) (pts : ℚ),
        ca.data.sequence = some cseq → 0 ≤ pts → cseq.get? i = some x →
        gradeDragDropPuzzle (.interactive "drag-drop-puzzle" resp) ca pts
          ≤ gradeDragDropPuzzle
              (.interactive "drag-drop-puzzle" { resp with sequence := resp.sequence.set i x })
              ca pts) :=
  ⟨fun resp p ca cps pts hcps hpts hp =>
      gradeConceptMatching_mono resp p ca cps pts hcps hpts hp,
    fun resp i x ca cseq pts hseq hpts hx =>
      gradeTimelineBuilder_mono resp i x ca cseq pts hseq hpts hx,
    fun resp i d ca ccs pts hccs hpts hd =>
      gradeTrueFalseStatements_mono resp i d ca ccs pts hccs hpts hd,
    fun resp i x ca cseq pts hseq hpts hx =>
      gradeDragDropPuzzle_mono resp i x ca cseq pts hseq hpts hx⟩

/-- Witness for C8 at concrete inputs: one extra correct pair and one
corrected position or classification. -/
theorem graders_monotone_witness :
    (gradeConceptMatching
        (.interactive "concept-matching" { pairs := [] }) conceptPairSpec 10
      ≤ gradeConceptMatching
          (.interactive "concept-matching"
            { pairs := [] ++ [{ conceptId := "c1", definitionId := "d1" }] })
          conceptPairSpec 10)
    ∧ (gradeTimelineBuilder
        (.interactive "timeline-builder" { sequence := ["z"] }) oneStepSequenceSpec 10
      ≤ gradeTimelineBuilder
          (.interactive "timeline-builder" { sequence := (["z"] : List String).set 0 "a" })
          oneStepSequenceSpec 10) :=
  ⟨graders_monotone.1 { pairs := [] } { conceptId := "c1", definitionId := "d1" }
      conceptPairSpec [{ conceptId := "c1", definitionId := "d1" }] 10 rfl
      (by norm_num) (by decide),
    graders_monotone.2.1 { sequence := ["z"] } 0 "a" oneStepSequenceSpec ["a"] 10 rfl
      (by norm_num) (by decide)⟩

/-- Factory verification never offers a retry on a pass. -/
theorem verifyFactoryTokenCreation_terminal (chain : Chain) (env : Env)
    (rpcUrl txId : String) (chainId : Int) (expectedCreator : String) :
    passTerminal (verifyFactoryTokenCreation chain env rpcUrl txId chainId expectedCreator) := by
  unfold passTerminal verifyFactoryTokenCreation
  intro hp
  simp only [] at hp
  repeat' split at hp
  all_goals simp_all

/-- Manual-deployment verification never offers a retry on a pass. -/
theorem verifyManualTokenDeployment_terminal (chain : Chain)
    (rpcUrl txId expectedClaimant : String) :
    passTerminal (verifyManualTokenDeployment chain rpcUrl txId expectedClaimant) := by
  unfold passTerminal verifyManualTokenDeployment
  intro hp
  simp only [] at hp
  repeat' split at hp
  all_goals simp_all

/-- Staking verification never offers a retry on a pass. -/
theorem verifyStakingContract_terminal (chain : Chain)
    (rpcUrl txId expectedClaimant : String) :
    passTerminal (verifyStakingContract chain rpcUrl txId expectedClaimant) := by
  unfold passTerminal verifyStakingContract
  intro hp
  simp only [] at hp
  repeat' split at hp
  all_goals simp_all [receiptFailResult, txFailedResult, noDeployResult]

/-- NFT-collection verification never offers a retry on a pass. -/
theorem verifyNFTCollection_terminal (chain : Chain)
    (rpcUrl txId expectedClaimant : String) :
    passTerminal (verifyNFTCollection chain rpcUrl txId expectedClaimant) := by
  unfold passTerminal verifyNFTCollection
  intro hp
  simp only [] at hp
  repeat' split at hp
  all_goals simp_all [receiptFailResult, txFailedResult, noDeployResult]

/-- Random-number-generator verification never offers a retry on a pass. -/
theorem verifyRandomNumberGenerator_terminal (chain : Chain)
    (rpcUrl txId expectedClaimant : String) :
    passTerminal (verifyRandomNumberGenerator chain rpcUrl txId expectedClaimant) := by
  unfold passTerminal verifyRandomNumberGenerator
  intro hp
  simp only [] at hp
  repeat' split at hp
  all_goals try simp_all [receiptFailResult, txFailedResult, noDeployResult]
  all_goals (split <;> simp_all)

/-- Upgradeable-proxy verification never offers a retry on a pass. -/
theorem verifyUpgradeableContract_terminal (chain : Chain) (ext : EthersExt)
    (rpcUrl proxyAddress expectedClaimant : String) :
    passTerminal (verifyUpgradeableContract chain ext rpcUrl proxyAddress expectedClaimant) := by
  unfold passTerminal verifyUpgradeableContract
  intro hp
  simp only [] at hp
  repeat' split at hp
  all_goals simp_all

/-- Generic transaction verification never offers a retry on a pass. -/
theorem genericTransactionValidation_terminal (chain : Chain) (ext : EthersExt)
    (rpcUrl transactionHash walletAddress : String) :
    passTerminal (genericTransactionValidation chain ext rpcUrl transactionHash walletAddress) := by
  unfold passTerminal genericTransactionValidation
  intro hp
  simp only [] at hp
  repeat' split at hp
  all_goals simp_all

/-- The transaction validator never offers a retry on a pass. -/
theorem validateTransactionSubmission_terminal (chain : Chain) (ext : EthersExt)
    (envOpt : Option Env) (sub : SubmissionData)
    (achievementNumber walletAddress rpcUrl : String) :
    passTerminal (validateTransactionSubmission chain ext envOpt sub
      achievementNumber walletAddress rpcUrl) := by
  unfold validateTransactionSubmission
  simp only []
  repeat' split
  all_goals intro hp
  all_goals first
    | exact verifyFactoryTokenCreation_terminal _ _ _ _ _ _ hp
    | exact verifyManualTokenDeployment_terminal _ _ _ _ hp
    | exact verifyStakingContract_terminal _ _ _ _ hp
    | exact verifyNFTCollection_terminal _ _ _ _ hp
    | exact verifyRandomNumberGenerator_terminal _ _ _ _ hp
    | exact genericTransactionValidation_terminal _ _ _ _ _ hp
    | simp_all [invalidTxFormatResult, claimantMismatchResult]

/-- The secret validator never offers a retry on a pass. -/
theorem validateSecretSubmission_terminal (secretAnswersConfig : String → Option String)
    (achievementNumber : String) (nowMs : Nat) (secretAnswer : Option String) :
    passTerminal (validateSecretSubmission secretAnswersConfig achievementNumber nowMs
      secretAnswer) := by
  unfold passTerminal validateSecretSubmission
  intro hp
  simp only [] at hp
  repeat' split at hp
  all_goals try simp_all
  all_goals (split <;> simp_all)

/-- The quiz validator never offers a retry on a pass. -/
theorem validateQuizSubmission_terminal (quizConfig : String → Option QuizData)
    (achievementNumber : String) (answers : Option (String → Option UserAnswer))
    (ts : Option ℚ) (r : VResult)
    (hr : validateQuizSubmission quizConfig achievementNumber answers ts = some r) :
    passTerminal r := by
  unfold validateQuizSubmission at hr
  repeat' split at hr
  all_goals simp only [Option.some.injEq, reduceCtorEq] at hr
  all_goals subst hr
  all_goals intro hp
  all_goals simp_all [quizResult]

/-- Every result produced by the validator dispatch is terminal on a pass. -/
theorem validateSubmission_terminal (chain : Chain) (ext : EthersExt) (envOpt : Option Env)
    (quizConfig : String → Option QuizData) (secretAnswersConfig : String → Option String)
    (nowMs : Nat) (ctx : ValidationContext) (r : VResult)
    (hr : validateSubmission chain ext envOpt quizConfig secretAnswersConfig nowMs ctx
      = some r) : passTerminal r := by
  unfold validateSubmission at hr
  simp only [] at hr
  repeat' split at hr
  all_goals first
    | exact validateQuizSubmission_terminal _ _ _ _ _ hr
    | (simp only [Option.some.injEq] at hr; subst hr; intro hp;
       first
         | exact validateTransactionSubmission_terminal _ _ _ _ _ _ _ hp
         | exact validateSecretSubmission_terminal _ _ _ _ hp
         | exact verifyUpgradeableContract_terminal _ _ _ _ _ hp
         | simp_all)

/-- C4: passing is terminal for every validator result, and the
non-recoverable failures (quiz bank missing, secret not configured, launch
window expired) are reported with retryAllowed false. -/
theorem validation_retry_invariant :
    (∀ (chain : Chain) (ext : EthersExt) (envOpt : Option Env)
        (quizConfig : String → Option QuizData)
        (secretAnswersConfig : String → Option String) (nowMs : Nat)
        (ctx : ValidationContext) (r : VResult),
        validateSubmission chain ext envOpt quizConfig secretAnswersConfig nowMs ctx = some r →
        r.passed = true → r.retryAllowed = false)
    ∧ (∀ (quizConfig : String → Option QuizData) (achievementNumber : String)
        (answers : Option (String → Option UserAnswer)) (ts : Option ℚ) (r : VResult),
        quizConfig achievementNumber = none →
        validateQuizSubmission quizConfig achievementNumber answers ts = some r →
        r.passed = false ∧ r.retryAllowed = false)
    ∧ (∀ (secretAnswersConfig : String → Option String) (achievementNumber : String)
        (nowMs : Nat) (secretAnswer : Option String),
        strFalsyToNone (secretAnswersConfig achievementNumber) = none →
        (validateSecretSubmission secretAnswersConfig achievementNumber nowMs
          secretAnswer).passed = false
        ∧ (validateSecretSubmission secretAnswersConfig achievementNumber nowMs
            secretAnswer).retryAllowed = false)
    ∧ (∀ (secretAnswersConfig : String → Option String) (nowMs : Nat)
        (secretAnswer : Option String),
        nowMs > launchCutoffMs →
        (validateSecretSubmission secretAnswersConfig "1101" nowMs
          secretAnswer).retryAllowed = false) := by
  refine ⟨?_, ?_, ?_, ?_⟩
  · intro chain ext envOpt quizConfig secretAnswersConfig nowMs ctx r hr
    exact validateSubmission_terminal chain ext envOpt quizConfig secretAnswersConfig
      nowMs ctx r hr
  · intro quizConfig achievementNumber answers ts r hq hr
    unfold validateQuizSubmission at hr
    rw [hq] at hr
    simp only [Option.some.injEq] at hr
    subst hr
    exact ⟨rfl, rfl⟩
  · intro secretAnswersConfig achievementNumber nowMs secretAnswer hc
    unfold validateSecretSubmission
    rw [hc]
    exact ⟨rfl, rfl⟩
  · intro secretAnswersConfig nowMs secretAnswer hnow
    exact (secret_1101_expired secretAnswersConfig nowMs secretAnswer hnow).2

/-- Witness for C4: a concrete passing secret run through the dispatch has
retryAllowed false; the pass hypothesis is discharged by evaluation. -/
theorem validation_retry_invariant_witness :
    (validateSecretSubmission constSecretConfig "1001" 0 (some "SECRET")).passed = true
    ∧ (validateSecretSubmission constSecretConfig "1001" 0 (some "SECRET")).retryAllowed
        = false :=
  ⟨by decide,
    validation_retry_invariant.1 unreachableChain sampleExt none noQuizConfig
      constSecretConfig 0 passingSecretCtx
      (validateSecretSubmission constSecretConfig "1001" 0 (some "SECRET")) rfl (by decide)⟩

/-- A nonempty optional string passes the falsy normalization unchanged. -/
theorem strFalsyToNone_some_ne (s : String) (h : s ≠ "") :
    strFalsyToNone (some s) = some s := by
  unfold strFalsyToNone
  split
  · simp_all
  · rfl

/-- C5: a request whose declared submission kind differs from the catalog
kind of an existing achievement is answered without consulting any validator
input (chain oracle, external documents, clock all irrelevant) and leaves
the database unchanged; when the earlier shape checks pass, the answer is
the 400 kind-mismatch error. -/
theorem kind_mismatch_gate :
    (∀ (chain chain2 : Chain) (ext : EthersExt) (env : Env)
        (quizConfig quizConfig2 : String → Option QuizData)
        (secretAnswersConfig secretAnswersConfig2 : String → Option String)
        (nowMs nowMs2 : Nat) (db : Db) (req : SubmitRequest) (an st expected : String),
        req.achievementNumber = some an → req.submissionType = some st →
        achievementTypeOf an = some expected → st ≠ expected →
        submitHandler chain ext env quizConfig secretAnswersConfig nowMs db req
          = submitHandler chain2 ext env quizConfig2 secretAnswersConfig2 nowMs2 db req
        ∧ (submitHandler chain ext env quizConfig secretAnswersConfig nowMs db req).2 = db)
    ∧ (∀ (chain : Chain) (ext : EthersExt) (env : Env)
        (quizConfig : String → Option QuizData)
        (secretAnswersConfig : String → Option String) (nowMs : Nat) (db : Db)
        (w an st : String) (sd : SubmissionData) (expected : String),
        ext.isValidEthereumAddress w = true → w ≠ "" → an ≠ "" →
        validSubmissionTypes.contains st = true →
        achievementTypeOf an = some expected → st ≠ expected →
        submitHandler chain ext env quizConfig secretAnswersConfig nowMs db
          { walletAddress := some w, achievementNumber := some an
            submissionType := some st, submissionData := some sd }
          = ({ status := 400, success := false
               error := some ("Invalid submission type for achievement " ++ an
                 ++ ". Expected: " ++ expected) }, db)) := by
  constructor
  · intro chain chain2 ext env qc qc2 sc sc2 now now2 db req an st expected han hst hexp hne
    cases hw : strFalsyToNone req.walletAddress with
    | none => refine ⟨?_, ?_⟩ <;> simp [submitHandler, hw]
    | some w =>
      by_cases hv : ext.isValidEthereumAddress w
      case neg => refine ⟨?_, ?_⟩ <;> simp [submitHandler, hw, hv]
      case pos =>
        by_cases han0 : an = ""
        · subst han0
          simp [achievementTypeOf, ACHIEVEMENT_TYPES] at hexp
        · have hanum : strFalsyToNone req.achievementNumber = some an := by
            rw [han]; exact strFalsyToNone_some_ne an han0
          by_cases hti : st ∈ validSubmissionTypes
          case neg =>
            refine ⟨?_, ?_⟩ <;> simp [submitHandler, hw, hv, hanum, hst, hti]
          case pos =>
            cases hd : req.submissionData with
            | none =>
              refine ⟨?_, ?_⟩ <;> simp [submitHandler, hw, hv, hanum, hst, hti, hd]
            | some sd =>
              refine ⟨?_, ?_⟩ <;>
                simp [submitHandler, hw, hv, hanum, hst, hti, hd, hexp, hne]
  · intro chain ext env qc sc now db w an st sd expected hv hw0 han0 hti hexp hne
    have h1 : strFalsyToNone (some w) = some w := strFalsyToNone_some_ne w hw0
    have h2 : strFalsyToNone (some an) = some an := strFalsyToNone_some_ne an han0
    have hmem : st ∈ validSubmissionTypes := by simpa using hti
    simp [submitHandler, h1, h2, hv, hmem, hexp, hne]

/-- Witness for C5 at a concrete mismatched request (achievement 0001 is a
quiz, the declared kind is secret). -/
theorem kind_mismatch_gate_witness :
    sampleExt.isValidEthereumAddress sampleWallet = true
    ∧ submitHandler unreachableChain sampleExt sampleEnv noQuizConfig noSecretConfig 0 {}
        { walletAddress := some sampleWallet, achievementNumber := some "0001"
          submissionType := some "secret", submissionData := some { secretAnswer := some "S" } }
      = ({ status := 400, success := false
           error := some "Invalid submission type for achievement 0001. Expected: quiz" }, {}) :=
  ⟨by decide,
    by
      have h := kind_mismatch_gate.2 unreachableChain sampleExt sampleEnv noQuizConfig
        noSecretConfig 0 {} sampleWallet "0001" "secret" { secretAnswer := some "S" } "quiz"
        (by decide) (by decide) (by decide) (by decide) (by decide) (by decide)
      simpa using h⟩

/-- Inserting into the wallet table leaves completion rows untouched. -/
theorem createWalletData_completions (db : Db) (w0 : String) :
    (createWalletData db w0).completions = db.completions := by
  unfold createWalletData
  split <;> rfl

/-- The wallet-table insert does not change passed counts. -/
theorem passedCount_createWalletData (db : Db) (w0 w a : String) :
    passedCount (createWalletData db w0) w a = passedCount db w a := by
  unfold passedCount
  rw [createWalletData_completions]

/-- Counting effect of inserting one completion row. -/
theorem passedCount_create (db : Db) (row : CompletionRow) (w a : String) :
    passedCount (createTrainingCompletion db row) w a
      = (if row.wallet_address == w && row.achievement_number == a && row.passed
          then 1 else 0) + passedCount db w a := by
  unfold passedCount createTrainingCompletion
  simp only [List.filter_cons]
  split <;> (simp_all; try omega)

/-- An absent passed completion means a zero passed count. -/
theorem getTrainingCompletion_none_count (db : Db) (w a : String)
    (h : getTrainingCompletion db w a = none) : passedCount db w a = 0 := by
  unfold getTrainingCompletion at h
  rw [List.find?_eq_none] at h
  unfold passedCount
  rw [List.length_eq_zero, List.filter_eq_nil_iff]
  intro x hx
  exact h x hx

/-- The handler either leaves the store unchanged, or appends exactly one row
for a pair that had no passed completion before the request. -/
theorem submitHandler_db_cases (chain : Chain) (ext : EthersExt) (env : Env)
    (quizConfig : String → Option QuizData) (secretAnswersConfig : String → Option String)
    (nowMs : Nat) (db : Db) (req : SubmitRequest) :
    (submitHandler chain ext env quizConfig secretAnswersConfig nowMs db req).2 = db
    ∨ ∃ row, getTrainingCompletion db row.wallet_address row.achievement_number = none
        ∧ (submitHandler chain ext env quizConfig secretAnswersConfig nowMs db req).2
            = createTrainingCompletion (createWalletData db row.wallet_address) row := by
  unfold submitHandler
  simp only []
  repeat' split
  all_goals try (left; rfl)
  all_goals right
  all_goals refine ⟨_, ?_, rfl⟩
  all_goals assumption

/-- One handler step preserves the at-most-one-passed bound. -/
theorem submitHandler_passedCount_le (chain : Chain) (ext : EthersExt) (env : Env)
    (quizConfig : String → Option QuizData) (secretAnswersConfig : String → Option String)
    (nowMs : Nat) (db : Db) (req : SubmitRequest) (w a : String)
    (h : passedCount db w a ≤ 1) :
    passedCount (submitHandler chain ext env quizConfig secretAnswersConfig nowMs db req).2
      w a ≤ 1 := by
  rcases submitHandler_db_cases chain ext env quizConfig secretAnswersConfig nowMs db req
    with hdb | ⟨row, hnone, hdb⟩
  · rw [hdb]; exact h
  · rw [hdb, passedCount_create, passedCount_createWalletData]
    by_cases hm : (row.wallet_address == w && row.achievement_number == a && row.passed) = true
    · simp only [hm, if_true]
      simp only [Bool.and_eq_true, beq_iff_eq] at hm
      obtain ⟨⟨hw1, ha1⟩, _⟩ := hm
      have h0 : passedCount db w a = 0 := by
        subst hw1
        subst ha1
        exact getTrainingCompletion_none_count db _ _ hnone
      omega
    · simp only [hm, if_false]
      simpa using h

/-- Folding any request sequence preserves the bound. -/
theorem runSubmissions_passedCount_le (steps : List SubmitStep) (db : Db) (w a : String)
    (h : passedCount db w a ≤ 1) :
    passedCount (runSubmissions steps db) w a ≤ 1 := by
  induction steps generalizing db with
  | nil => exact h
  | cons s rest ih =>
    exact ih _ (submitHandler_passedCount_le s.chain s.ext s.env s.quizConfig
      s.secretAnswersConfig s.nowMs db s.req w a h)

/-- C1: starting from an empty store, any sequence of submissions through
the submit endpoint leaves at most one completion row with passed true for
every wallet and achievement pair, because the router's idempotence gate
consults the most recent passed completion before validating. -/
theorem at_most_one_passed_completion (steps : List SubmitStep) (w a : String) :
    passedCount (runSubmissions steps {}) w a ≤ 1 :=
  runSubmissions_passedCount_le steps {} w a (by simp [passedCount])
